import Mathlib

set_option linter.unusedVariables false

/-!
Verification of the `respite` RESP (Redis wire protocol) codec.

This file gives a shallow embedding of the crate's reader (`src/reader.rs`),
inline splitter (`src/splitter.rs`), request tokenizer (`src/reader.rs`,
`RespReader::request`/`requests`) and writer (`src/writer.rs`), together with
theorems settling the specification claims.

Modelling conventions:
* Bytes are `Nat` (the source uses `u8`; every operation the claims depend on
  is an equality or range test against constants, so the extra values above
  255 are inert).  Byte strings (`Bytes`/`BytesMut`/`&[u8]`) are `List Nat`.
* The reader wraps an `AsyncRead` that yields the stream in arbitrary chunks.
  All decode results are chunking-independent, so the reader state is modelled
  as the list of bytes not yet consumed; `peek`/`pop`/`require`/`read_exact`/
  `require_line`/`read_size` become functions from that list to
  `Except RespError (result × remaining)`.  `EndOfInput` models
  `read_some` hitting an exhausted source; transport I/O errors are not
  modelled.
* `usize` arithmetic: `read_size` uses `checked_mul`/`checked_add` on `usize`;
  this is modelled by an explicit `2 ^ 64` bound (`USIZE`).
* `OrderedFloat<f64>` payloads of `Double` frames are modelled by a type
  parameter `D` together with a parser `parseD` standing for
  `str::from_utf8(..).ok().and_then(|x| x.parse().ok())` (and a formatter
  `fmtD` standing for the `Display` instance on the writer side).
* `BTreeMap`/`BTreeSet` are modelled as key-unique association lists /
  element lists; the claims depend only on duplicate detection, which
  `insert(..).is_some()` performs by key equality.
* The recursion of `RespReader::value` is bounded by an explicit fuel
  parameter (termination artifact only; the claims hold for every fuel).
-/

namespace Respite

/-- `usize::MAX + 1`: the bound enforced by `checked_mul`/`checked_add`. -/
def USIZE : Nat := 2 ^ 64

/-- `RespError` from `src/error.rs`; the source names the transport-failure
variant after the std error type it wraps, rendered here as `IOErr`, payload
not modelled. -/
inductive RespError where
  | EndOfInput
  | InvalidBoolean
  | InvalidBlobLength
  | InvalidDouble
  | InvalidInteger
  | InvalidMap
  | InvalidSet
  | InvalidVerbatim
  | IOErr
  | Newline
  | Version
  | RespPrimitive
  | TooBigInline
  | Unexpected (expected actual : Nat)
  | UnknownType (marker : Nat)
  | InvalidInline
deriving DecidableEq, Repr

/-- `RespVersion` from `src/version.rs`. -/
inductive RespVersion where
  | V2
  | V3
deriving DecidableEq, Repr

/-- `RespFrame` from `src/frame.rs`; `D` models `OrderedFloat<f64>`. -/
inductive RespFrame (D : Type) where
  | Array (n : Nat)
  | Attribute (n : Nat)
  | Bignum (v : List Nat)
  | BlobError (v : List Nat)
  | BlobString (v : List Nat)
  | Boolean (b : Bool)
  | Double (d : D)
  | Integer (i : Int)
  | Map (n : Nat)
  | Nil
  | Push (n : Nat)
  | Set (n : Nat)
  | SimpleError (v : List Nat)
  | SimpleString (v : List Nat)
  | Verbatim (format v : List Nat)
deriving DecidableEq, Repr

/-- `RespPrimitive` from `src/primitive.rs`. -/
inductive RespPrimitive where
  | Integer (i : Int)
  | Nil
  | String (v : List Nat)
deriving DecidableEq, Repr

/-- `RespValue` from `src/value.rs`.  `Map`/`Attribute` are association lists
standing for `BTreeMap<RespPrimitive, RespValue>`, `Set` a list standing for
`BTreeSet<RespPrimitive>`; the decoder keeps keys unique. -/
inductive RespValue (D : Type) where
  | Attribute (m : List (RespPrimitive × RespValue D))
  | Array (vs : List (RespValue D))
  | Bignum (v : List Nat)
  | Boolean (b : Bool)
  | Double (d : D)
  | Error (v : List Nat)
  | Integer (i : Int)
  | Map (m : List (RespPrimitive × RespValue D))
  | Nil
  | Push (vs : List (RespValue D))
  | Set (s : List RespPrimitive)
  | String (v : List Nat)
  | Verbatim (format v : List Nat)

/-- `RespConfig` from `src/config.rs` (the atomics are shared tuning knobs;
one decode call reads them as plain values). -/
structure RespConfig where
  blob_limit : Nat
  inline_limit : Nat
deriving DecidableEq, Repr

/-- `RespConfig::default()`. -/
def defaultConfig : RespConfig :=
  { blob_limit := 512 * 1024 * 1024, inline_limit := 1024 * 64 }

/-! ## Byte-level reader primitives (`src/reader.rs:431-537`) -/

/-- `RespReader::pop`: consume one byte, `EndOfInput` when the source is
exhausted. -/
def pop : List Nat → Except RespError (Nat × List Nat)
  | [] => .error .EndOfInput
  | b :: rest => .ok (b, rest)

/-- `RespReader::peek`: look at the next byte without consuming it; `none`
when the source is exhausted. -/
def peek (input : List Nat) : Option Nat :=
  input.head?

/-- `RespReader::require`: consume an expected byte sequence, failing with
`Unexpected(expected, got)` at the first mismatch. -/
def require : List Nat → List Nat → Except RespError (List Nat)
  | [], input => .ok input
  | _ :: _, [] => .error .EndOfInput
  | e :: es, b :: rest =>
    if b = e then require es rest else .error (.Unexpected e b)

/-- `RespReader::read_exact`: consume exactly `len` bytes, pulling from the
source as needed; `EndOfInput` if the source exhausts first. -/
def read_exact (len : Nat) (input : List Nat) :
    Except RespError (List Nat × List Nat) :=
  if input.length < len then .error .EndOfInput
  else .ok (input.take len, input.drop len)

/-- Position of the first `b'\r'`, modelling
`self.buffer[from..to].iter().position(|&b| b == b'\r')` accumulated over the
pull loop of `require_line`. -/
def findCR : List Nat → Option Nat
  | [] => none
  | b :: rest => if b = 13 then some 0 else (findCR rest).map (· + 1)

/-- `RespReader::require_line`/`read_line`: scan for the first CR within the
first `inline_limit` bytes, consume it plus the mandatory LF, and return the
preceding bytes.  `TooBigInline` when more than `inline_limit` bytes arrive
without a usable CR, `EndOfInput` when the source exhausts first. -/
def read_line (inline_limit : Nat) (input : List Nat) :
    Except RespError (List Nat × List Nat) :=
  match findCR input with
  | some i =>
    if i < inline_limit then
      match require [13, 10] (input.drop i) with
      | .error e => .error e
      | .ok rest => .ok (input.take i, rest)
    else if inline_limit < input.length then .error .TooBigInline
    else .error .EndOfInput
  | none =>
    if inline_limit < input.length then .error .TooBigInline
    else .error .EndOfInput

/-- The digit loop of `RespReader::read_size`, with the `checked_mul`/
`checked_add` `usize` overflow checks made explicit. -/
def read_size_loop : Nat → List Nat → Except RespError (Nat × List Nat)
  | _, [] => .error .EndOfInput
  | size, b :: rest =>
    if b = 13 then
      match require [10] rest with
      | .error e => .error e
      | .ok rest' => .ok (size, rest')
    else if 48 ≤ b ∧ b ≤ 57 then
      if size * 10 + (b - 48) < USIZE then
        read_size_loop (size * 10 + (b - 48)) rest
      else .error .InvalidBlobLength
    else .error .InvalidBlobLength

/-- `RespReader::read_size`: unsigned decimal terminated by CRLF;
`InvalidBlobLength` on an empty field, a non-digit, or overflow. -/
def read_size (input : List Nat) : Except RespError (Nat × List Nat) :=
  if peek input = some 13 then .error .InvalidBlobLength
  else read_size_loop 0 input

/-! ## Frame decoder (`src/reader.rs:248-429`) -/

section FrameDecoder

variable {D : Type}

/-- `RespReader::read_array` (`reader.rs:284-292`): `-1` is the legacy nil
sentinel. -/
def read_array (cfg : RespConfig) (input : List Nat) :
    Except RespError (RespFrame D × List Nat) :=
  match require [42] input with
  | .error e => .error e
  | .ok input1 =>
    if peek input1 = some 45 then
      match require [45, 49, 13, 10] input1 with
      | .error e => .error e
      | .ok rest => .ok (.Nil, rest)
    else
      match read_size input1 with
      | .error e => .error e
      | .ok (size, rest) => .ok (.Array size, rest)

/-- `RespReader::read_bignum` (`reader.rs:295-299`). -/
def read_bignum (cfg : RespConfig) (input : List Nat) :
    Except RespError (RespFrame D × List Nat) :=
  match require [40] input with
  | .error e => .error e
  | .ok input1 =>
    match read_line cfg.inline_limit input1 with
    | .error e => .error e
    | .ok (v, rest) => .ok (.Bignum v, rest)

/-- `RespReader::read_boolean` (`reader.rs:302-311`). -/
def read_boolean (cfg : RespConfig) (input : List Nat) :
    Except RespError (RespFrame D × List Nat) :=
  match require [35] input with
  | .error e => .error e
  | .ok input1 =>
    match pop input1 with
    | .error e => .error e
    | .ok (b, input2) =>
      if b = 116 then
        match require [13, 10] input2 with
        | .error e => .error e
        | .ok rest => .ok (.Boolean true, rest)
      else if b = 102 then
        match require [13, 10] input2 with
        | .error e => .error e
        | .ok rest => .ok (.Boolean false, rest)
      else .error .InvalidBoolean

/-- `RespReader::read_blob_string` (`reader.rs:314-327`): nil sentinel, then
blob-limit check *before* the payload is pulled. -/
def read_blob_string (cfg : RespConfig) (input : List Nat) :
    Except RespError (RespFrame D × List Nat) :=
  match require [36] input with
  | .error e => .error e
  | .ok input1 =>
    if peek input1 = some 45 then
      match require [45, 49, 13, 10] input1 with
      | .error e => .error e
      | .ok rest => .ok (.Nil, rest)
    else
      match read_size input1 with
      | .error e => .error e
      | .ok (size, input2) =>
        if size > cfg.blob_limit then .error .InvalidBlobLength
        else
          match read_exact size input2 with
          | .error e => .error e
          | .ok (v, input3) =>
            match require [13, 10] input3 with
            | .error e => .error e
            | .ok rest => .ok (.BlobString v, rest)

/-- `RespReader::read_double` (`reader.rs:330-338`); `parseD` models
`str::from_utf8(..).ok().and_then(|x| x.parse::<f64>().ok())`. -/
def read_double (parseD : List Nat → Option D) (cfg : RespConfig)
    (input : List Nat) : Except RespError (RespFrame D × List Nat) :=
  match require [44] input with
  | .error e => .error e
  | .ok input1 =>
    match read_line cfg.inline_limit input1 with
    | .error e => .error e
    | .ok (line, rest) =>
      match parseD line with
      | none => .error .InvalidDouble
      | some d => .ok (.Double d, rest)

/-- `RespReader::read_error` (`reader.rs:341-345`). -/
def read_error (cfg : RespConfig) (input : List Nat) :
    Except RespError (RespFrame D × List Nat) :=
  match require [45] input with
  | .error e => .error e
  | .ok input1 =>
    match read_line cfg.inline_limit input1 with
    | .error e => .error e
    | .ok (v, rest) => .ok (.SimpleError v, rest)

/-- The digit run of a decimal `Nat`; `byteVal (digits of n) = n`. -/
def byteVal (ds : List Nat) : Nat :=
  ds.foldl (fun a d => a * 10 + (d - 48)) 0

/-- All-ASCII-digit test used by the integer parser model. -/
def allDigits (ds : List Nat) : Bool :=
  ds.all fun d => decide (48 ≤ d ∧ d ≤ 57)

/-- Model of `str::parse::<u64>`-style digit-run parsing as used inside
`i64::from_str`: `none` unless the input is a non-empty digit run. -/
def parseNat (ds : List Nat) : Option Nat :=
  if ds = [] then none
  else if allDigits ds then some (byteVal ds) else none

/-- Model of `str::from_utf8(..).ok().and_then(|x| x.parse::<i64>().ok())`:
optional sign, non-empty digit run, result within the `i64` range. -/
def parseI64 (s : List Nat) : Option Int :=
  if s.head? = some 43 then
    (parseNat s.tail).bind fun n => if n < 2 ^ 63 then some (n : Int) else none
  else if s.head? = some 45 then
    (parseNat s.tail).bind fun n => if n ≤ 2 ^ 63 then some (-(n : Int)) else none
  else
    (parseNat s).bind fun n => if n < 2 ^ 63 then some (n : Int) else none

/-- `RespReader::read_integer` (`reader.rs:348-356`). -/
def read_integer (cfg : RespConfig) (input : List Nat) :
    Except RespError (RespFrame D × List Nat) :=
  match require [58] input with
  | .error e => .error e
  | .ok input1 =>
    match read_line cfg.inline_limit input1 with
    | .error e => .error e
    | .ok (line, rest) =>
      match parseI64 line with
      | none => .error .InvalidInteger
      | some i => .ok (.Integer i, rest)

/-- `RespReader::read_map` (`reader.rs:359-363`). -/
def read_map (cfg : RespConfig) (input : List Nat) :
    Except RespError (RespFrame D × List Nat) :=
  match require [37] input with
  | .error e => .error e
  | .ok input1 =>
    match read_size input1 with
    | .error e => .error e
    | .ok (size, rest) => .ok (.Map size, rest)

/-- `RespReader::read_nil` (`reader.rs:366-369`). -/
def read_nil (cfg : RespConfig) (input : List Nat) :
    Except RespError (RespFrame D × List Nat) :=
  match require [95, 13, 10] input with
  | .error e => .error e
  | .ok rest => .ok (.Nil, rest)

/-- `RespReader::read_push` (`reader.rs:372-376`). -/
def read_push (cfg : RespConfig) (input : List Nat) :
    Except RespError (RespFrame D × List Nat) :=
  match require [62] input with
  | .error e => .error e
  | .ok input1 =>
    match read_size input1 with
    | .error e => .error e
    | .ok (size, rest) => .ok (.Push size, rest)

/-- `RespReader::read_set` (`reader.rs:379-383`). -/
def read_set (cfg : RespConfig) (input : List Nat) :
    Except RespError (RespFrame D × List Nat) :=
  match require [126] input with
  | .error e => .error e
  | .ok input1 =>
    match read_size input1 with
    | .error e => .error e
    | .ok (size, rest) => .ok (.Set size, rest)

/-- `RespReader::read_simple_string` (`reader.rs:386-390`). -/
def read_simple_string (cfg : RespConfig) (input : List Nat) :
    Except RespError (RespFrame D × List Nat) :=
  match require [43] input with
  | .error e => .error e
  | .ok input1 =>
    match read_line cfg.inline_limit input1 with
    | .error e => .error e
    | .ok (v, rest) => .ok (.SimpleString v, rest)

/-- `RespReader::read_verbatim` (`reader.rs:393-410`): blob-limit check, then
the `≥ 4`/colon-at-3 format checks. -/
def read_verbatim (cfg : RespConfig) (input : List Nat) :
    Except RespError (RespFrame D × List Nat) :=
  match require [61] input with
  | .error e => .error e
  | .ok input1 =>
    match read_size input1 with
    | .error e => .error e
    | .ok (size, input2) =>
      if size > cfg.blob_limit then .error .InvalidBlobLength
      else if size < 4 then .error .InvalidVerbatim
      else
        match read_exact size input2 with
        | .error e => .error e
        | .ok (v, input3) =>
          if v[3]? ≠ some 58 then .error .InvalidVerbatim
          else
            match require [13, 10] input3 with
            | .error e => .error e
            | .ok rest => .ok (.Verbatim (v.take 3) (v.drop 4), rest)

/-- `RespReader::read_blob_error` (`reader.rs:413-422`). -/
def read_blob_error (cfg : RespConfig) (input : List Nat) :
    Except RespError (RespFrame D × List Nat) :=
  match require [33] input with
  | .error e => .error e
  | .ok input1 =>
    match read_size input1 with
    | .error e => .error e
    | .ok (size, input2) =>
      if size > cfg.blob_limit then .error .InvalidBlobLength
      else
        match read_exact size input2 with
        | .error e => .error e
        | .ok (v, input3) =>
          match require [13, 10] input3 with
          | .error e => .error e
          | .ok rest => .ok (.BlobError v, rest)

/-- `RespReader::read_attribute` (`reader.rs:425-429`). -/
def read_attribute (cfg : RespConfig) (input : List Nat) :
    Except RespError (RespFrame D × List Nat) :=
  match require [124] input with
  | .error e => .error e
  | .ok input1 =>
    match read_size input1 with
    | .error e => .error e
    | .ok (size, rest) => .ok (.Attribute size, rest)

/-- The `Ok(Some(..))` wrapping of the dispatch in `RespReader::frame`. -/
def wrapF (r : Except RespError (RespFrame D × List Nat)) :
    Except RespError (Option (RespFrame D) × List Nat) :=
  match r with
  | .error e => .error e
  | .ok (f, rest) => .ok (some f, rest)

/-- `RespReader::frame` (`reader.rs:248-271`): dispatch on the marker byte;
`none` when the source is already exhausted. -/
def frame (parseD : List Nat → Option D) (cfg : RespConfig)
    (input : List Nat) :
    Except RespError (Option (RespFrame D) × List Nat) :=
  match peek input with
  | none => .ok (none, input)
  | some b =>
    let wrap := wrapF (D := D)
    match b with
    | 42 => wrap (read_array cfg input)
    | 40 => wrap (read_bignum cfg input)
    | 35 => wrap (read_boolean cfg input)
    | 36 => wrap (read_blob_string cfg input)
    | 44 => wrap (read_double parseD cfg input)
    | 45 => wrap (read_error cfg input)
    | 58 => wrap (read_integer cfg input)
    | 37 => wrap (read_map cfg input)
    | 95 => wrap (read_nil cfg input)
    | 62 => wrap (read_push cfg input)
    | 126 => wrap (read_set cfg input)
    | 43 => wrap (read_simple_string cfg input)
    | 61 => wrap (read_verbatim cfg input)
    | 33 => wrap (read_blob_error cfg input)
    | 124 => wrap (read_attribute cfg input)
    | c => .error (.UnknownType c)

end FrameDecoder

/-! ## Value builder (`src/reader.rs:144-233`) -/

section ValueBuilder

variable {D : Type}

/-- `TryFrom<RespValue> for RespPrimitive` (`src/primitive.rs:30-42`). -/
def toPrimitive : RespValue D → Except RespError RespPrimitive
  | .Integer i => .ok (.Integer i)
  | .Nil => .ok .Nil
  | .String v => .ok (.String v)
  | _ => .error .RespPrimitive

/-- `RespReader::require_value` (`reader.rs:231-233`), abstracted over the
recursive `value` call. -/
def requireChild
    (child : List Nat → Except RespError (Option (RespValue D) × List Nat))
    (input : List Nat) : Except RespError (RespValue D × List Nat) :=
  match child input with
  | .error e => .error e
  | .ok (none, _) => .error .EndOfInput
  | .ok (some v, rest) => .ok (v, rest)

/-- The `for _ in 0..size` loop of the `Array`/`Push` branches of
`RespReader::value`. -/
def arrayLoop
    (child : List Nat → Except RespError (Option (RespValue D) × List Nat)) :
    Nat → List Nat → Except RespError (List (RespValue D) × List Nat)
  | 0, input => .ok ([], input)
  | n + 1, input =>
    match requireChild child input with
    | .error e => .error e
    | .ok (v, rest) =>
      match arrayLoop child n rest with
      | .error e => .error e
      | .ok (vs, rest') => .ok (v :: vs, rest')

/-- The key/value loop of the `Map`/`Attribute` branches of
`RespReader::value`: `map.insert(key, value).is_some()` fails `InvalidMap`
on a duplicate key. -/
def mapLoop
    (child : List Nat → Except RespError (Option (RespValue D) × List Nat)) :
    Nat → List (RespPrimitive × RespValue D) → List Nat →
      Except RespError (List (RespPrimitive × RespValue D) × List Nat)
  | 0, m, input => .ok (m, input)
  | n + 1, m, input =>
    match requireChild child input with
    | .error e => .error e
    | .ok (kv, input1) =>
      match toPrimitive kv with
      | .error e => .error e
      | .ok k =>
        match requireChild child input1 with
        | .error e => .error e
        | .ok (v, input2) =>
          if k ∈ m.map Prod.fst then .error .InvalidMap
          else mapLoop child n (m ++ [(k, v)]) input2

/-- The member loop of the `Set` branch of `RespReader::value`:
`!set.insert(value)` fails `InvalidSet` on a duplicate member. -/
def setLoop
    (child : List Nat → Except RespError (Option (RespValue D) × List Nat)) :
    Nat → List RespPrimitive → List Nat →
      Except RespError (List RespPrimitive × List Nat)
  | 0, s, input => .ok (s, input)
  | n + 1, s, input =>
    match requireChild child input with
    | .error e => .error e
    | .ok (kv, input1) =>
      match toPrimitive kv with
      | .error e => .error e
      | .ok k =>
        if k ∈ s then .error .InvalidSet
        else setLoop child n (s ++ [k]) input1

/-- `RespReader::value` (`reader.rs:144-218`): one frame, then recursive
assembly for aggregates.  `fuel` bounds the recursion depth (termination
artifact; not part of the source, which recurses natively). -/
def value (parseD : List Nat → Option D) (cfg : RespConfig) :
    Nat → List Nat → Except RespError (Option (RespValue D) × List Nat)
  | 0, _ => .error .EndOfInput
  | fuel + 1, input =>
    match frame parseD cfg input with
    | .error e => .error e
    | .ok (none, rest) => .ok (none, rest)
    | .ok (some f, rest) =>
      match f with
      | .Array n =>
        match arrayLoop (fun i => value parseD cfg fuel i) n rest with
        | .error e => .error e
        | .ok (vs, rest') => .ok (some (.Array vs), rest')
      | .Attribute n =>
        match mapLoop (fun i => value parseD cfg fuel i) n [] rest with
        | .error e => .error e
        | .ok (m, rest') => .ok (some (.Attribute m), rest')
      | .Bignum v => .ok (some (.Bignum v), rest)
      | .BlobError v => .ok (some (.Error v), rest)
      | .BlobString v => .ok (some (.String v), rest)
      | .Boolean b => .ok (some (.Boolean b), rest)
      | .Double d => .ok (some (.Double d), rest)
      | .Integer i => .ok (some (.Integer i), rest)
      | .Map n =>
        match mapLoop (fun i => value parseD cfg fuel i) n [] rest with
        | .error e => .error e
        | .ok (m, rest') => .ok (some (.Map m), rest')
      | .Nil => .ok (some .Nil, rest)
      | .Push n =>
        match arrayLoop (fun i => value parseD cfg fuel i) n rest with
        | .error e => .error e
        | .ok (vs, rest') => .ok (some (.Push vs), rest')
      | .Set n =>
        match setLoop (fun i => value parseD cfg fuel i) n [] rest with
        | .error e => .error e
        | .ok (s, rest') => .ok (some (.Set s), rest')
      | .SimpleError v => .ok (some (.Error v), rest)
      | .SimpleString v => .ok (some (.String v), rest)
      | .Verbatim fmt v => .ok (some (.Verbatim fmt v), rest)

end ValueBuilder

/-! ## Inline splitter (`src/splitter.rs`) -/

/-- `State` from `src/splitter.rs:6-18`. -/
inductive SplitState where
  | Trim
  | NoQuotes
  | SingleQuotes
  | DoubleQuotes
deriving DecidableEq, Repr

/-- `u8::is_ascii_whitespace`: space, tab, LF, FF, CR. -/
def isWs (b : Nat) : Bool :=
  b = 32 || b = 9 || b = 10 || b = 12 || b = 13

/-- A single hex digit, as `from_str_radix` digit classification. -/
def hexDigit (b : Nat) : Option Nat :=
  if 48 ≤ b ∧ b ≤ 57 then some (b - 48)
  else if 97 ≤ b ∧ b ≤ 102 then some (b - 87)
  else if 65 ≤ b ∧ b ≤ 70 then some (b - 55)
  else none

/-- `u8::from_str_radix(from_utf8([a,b]), 16)` on the two escape bytes:
two hex digits, or a leading `+` sign before one hex digit. -/
def hexPair (a b : Nat) : Option Nat :=
  if a = 43 then hexDigit b
  else
    match hexDigit a, hexDigit b with
    | some x, some y => some (16 * x + y)
    | _, _ => none

/-- The escape table of the `DoubleQuotes` state
(`splitter.rs:147-156`): `\a \b \n \r \t`, anything else literal. -/
def escByte (b : Nat) : Nat :=
  if b = 97 then 7
  else if b = 98 then 8
  else if b = 110 then 10
  else if b = 114 then 13
  else if b = 116 then 9
  else b

/-- The state machine loop of `Splitter::split` (`splitter.rs:44-165`).
`buffer` is the partial-token scratch, `acc` the argument queue; `none`
models the `invalid!` exit, which discards both.  The Rust `Trim` default
arm re-enters `NoQuotes` without consuming; here that first byte is pushed
directly (it is neither whitespace nor a quote, so `NoQuotes` would copy
it), keeping the recursion structural. -/
def splitLoop : SplitState → List Nat → List Nat → List (List Nat) →
    Option (List (List Nat))
  | .Trim, [], _buffer, acc => some acc
  | .Trim, 39 :: rest, buffer, acc => splitLoop .SingleQuotes rest buffer acc
  | .Trim, 34 :: rest, buffer, acc => splitLoop .DoubleQuotes rest buffer acc
  | .Trim, b :: rest, buffer, acc =>
    if isWs b then splitLoop .Trim rest buffer acc
    else splitLoop .NoQuotes rest (buffer ++ [b]) acc
  | .NoQuotes, [], buffer, acc => some (acc ++ [buffer])
  | .NoQuotes, b :: rest, buffer, acc =>
    if isWs b then splitLoop .Trim rest [] (acc ++ [buffer])
    else splitLoop .NoQuotes rest (buffer ++ [b]) acc
  | .SingleQuotes, [], _buffer, _acc => none
  | .SingleQuotes, 39 :: b :: rest, buffer, acc =>
    if isWs b then splitLoop .Trim (b :: rest) [] (acc ++ [buffer]) else none
  | .SingleQuotes, [39], buffer, acc => splitLoop .Trim [] [] (acc ++ [buffer])
  | .SingleQuotes, 92 :: 39 :: rest, buffer, acc =>
    splitLoop .SingleQuotes rest (buffer ++ [39]) acc
  | .SingleQuotes, b :: rest, buffer, acc =>
    splitLoop .SingleQuotes rest (buffer ++ [b]) acc
  | .DoubleQuotes, [], _buffer, _acc => none
  | .DoubleQuotes, 34 :: b :: rest, buffer, acc =>
    if isWs b then splitLoop .Trim (b :: rest) [] (acc ++ [buffer]) else none
  | .DoubleQuotes, [34], buffer, acc => splitLoop .Trim [] [] (acc ++ [buffer])
  | .DoubleQuotes, 92 :: 120 :: a :: b :: rest, buffer, acc =>
    (match hexPair a b with
     | some byte => splitLoop .DoubleQuotes rest (buffer ++ [byte]) acc
     | none => splitLoop .DoubleQuotes rest (buffer ++ [120, a, b]) acc)
  | .DoubleQuotes, 92 :: b :: rest, buffer, acc =>
    splitLoop .DoubleQuotes rest (buffer ++ [escByte b]) acc
  | .DoubleQuotes, b :: rest, buffer, acc =>
    splitLoop .DoubleQuotes rest (buffer ++ [b]) acc

/-- `Splitter::split` on one line: `some tokens` when the line is valid
(the tokens are queued), `none` when malformed (queue and scratch are
cleared).  The scratch buffer is empty on entry in every reachable state
of the reader. -/
def split (input : List Nat) : Option (List (List Nat)) :=
  splitLoop .Trim input [] []

/-! ## Request tokenizer (`src/reader.rs:11-129`) -/

/-- `RespRequest` from `src/request.rs`. -/
inductive RespRequest where
  | Argument (v : List Nat)
  | InvalidArgument
  | Error (e : RespError)
  | End
deriving DecidableEq, Repr

/-- `RequestState` from `src/reader.rs:13-25`. -/
inductive RequestState where
  | Args (n : Nat)
  | Done
  | Init
  | Splitting
deriving DecidableEq, Repr

/-- The request-relevant state of a `RespReader`: resumption state, the
splitter's queued arguments, and the unconsumed input. -/
structure ReaderState where
  request_state : RequestState
  args : List (List Nat)
  input : List Nat
deriving DecidableEq, Repr

/-- The `Args` arms of `RespReader::request` (`reader.rs:80-96`):
`Args(0)` ends the request; `Args(c+1)` reads one `$`-framed argument,
checking `blob_limit` after the size and before the payload. -/
def argsStep (cfg : RespConfig) (c : Nat) (args : List (List Nat))
    (input : List Nat) : Except RespError (Option RespRequest × ReaderState) :=
  match c with
  | 0 => .ok (some .End, ⟨.Init, args, input⟩)
  | c + 1 =>
    match require [36] input with
    | .error e => .error e
    | .ok input1 =>
      match read_size input1 with
      | .error e => .error e
      | .ok (size, input2) =>
        if size > cfg.blob_limit then .error .InvalidBlobLength
        else
          match read_exact size input2 with
          | .error e => .error e
          | .ok (res, input3) =>
            match require [13, 10] input3 with
            | .error e => .error e
            | .ok input4 => .ok (some (.Argument res), ⟨.Args c, args, input4⟩)

/-- The `Splitting` arm of `RespReader::request` (`reader.rs:117-123`). -/
def splittingStep (args : List (List Nat)) (input : List Nat) :
    Except RespError (Option RespRequest × ReaderState) :=
  match args with
  | a :: rest => .ok (some (.Argument a), ⟨.Splitting, rest, input⟩)
  | [] => .ok (some .End, ⟨.Init, [], input⟩)

/-- `RespReader::request` (`reader.rs:76-129`).  The Rust `loop` only
re-enters after the `Init → Args`/`Init → Splitting` transitions, which is
rendered by calling the corresponding arm directly. -/
def request (cfg : RespConfig) (st : ReaderState) :
    Except RespError (Option RespRequest × ReaderState) :=
  match st.request_state with
  | .Args c => argsStep cfg c st.args st.input
  | .Done => .ok (none, st)
  | .Splitting => splittingStep st.args st.input
  | .Init =>
    match peek st.input with
    | none => .ok (none, ⟨.Done, st.args, st.input⟩)
    | some b =>
      if b = 42 then
        match require [42] st.input with
        | .error e => .error e
        | .ok input1 =>
          match read_size input1 with
          | .error e => .error e
          | .ok (count, input2) => argsStep cfg count st.args input2
      else
        match read_line cfg.inline_limit st.input with
        | .error e => .error e
        | .ok (line, rest) =>
          match split line with
          | some toks => splittingStep (st.args ++ toks) rest
          | none => .ok (some .InvalidArgument, ⟨.Init, [], rest⟩)

/-- `RespReader::new` (`reader.rs:52-60`): initial request state. -/
def initState (input : List Nat) : ReaderState :=
  ⟨.Init, [], input⟩

/-- One step of the `unfold` in `RespReader::requests` (`reader.rs:63-73`):
`Ok(None)` ends the stream, an error yields one `Error` item and drops the
reader (`None` state), so nothing can follow. -/
def requestsStep (cfg : RespConfig) :
    Option ReaderState → Option (RespRequest × Option ReaderState)
  | none => none
  | some st =>
    match request cfg st with
    | .ok (none, _) => none
    | .ok (some r, st') => some (r, some st')
    | .error e => some (.Error e, none)

/-- The items produced by the `requests` stream, up to `fuel` pulls. -/
def requestsList (cfg : RespConfig) :
    Nat → Option ReaderState → List RespRequest
  | 0, _ => []
  | fuel + 1, ost =>
    match requestsStep cfg ost with
    | none => []
    | some (r, ost') => r :: requestsList cfg fuel ost'

/-! ## Protocol writer (`src/writer.rs`)

Each method is a function from a protocol version, its payload, and the
bytes already in the sink, to the sink after the call plus the `Result`.
Every error path in the source returns before the first `write_all!`, so an
erroring call leaves the sink untouched. -/

def crlf : List Nat := [13, 10]

/-- Most-significant-first decimal digits; the fuel argument only drives the
structural recursion (`n` itself is always enough). -/
def natToBytesAux : Nat → Nat → List Nat
  | 0, _ => []
  | fuel + 1, n =>
    if n = 0 then [] else natToBytesAux fuel (n / 10) ++ [n % 10 + 48]

/-- The `Display` form of an unsigned integer (`write!("{}", len)`). -/
def natToBytes (n : Nat) : List Nat :=
  if n = 0 then [48] else natToBytesAux n n

/-- The `Display` form of an `i64` (`write!("{}", value)`). -/
def intToBytes (i : Int) : List Nat :=
  if i < 0 then 45 :: natToBytes i.natAbs else natToBytes i.toNat

/-- `RespWriter::write_array` (`writer.rs:49-52`): identical in both
versions. -/
def write_array (version : RespVersion) (len : Nat) (sink : List Nat) :
    List Nat × Except RespError Unit :=
  (sink ++ [42] ++ natToBytes len ++ crlf, .ok ())

/-- `RespWriter::write_attribute` (`writer.rs:55-63`): unsupported in V2. -/
def write_attribute (version : RespVersion) (v : List Nat)
    (sink : List Nat) : List Nat × Except RespError Unit :=
  if version = .V2 then (sink, .error .Version)
  else (sink ++ [124] ++ natToBytes v.length ++ crlf ++ v ++ crlf, .ok ())

/-- `RespWriter::write_bignum` (`writer.rs:66-77`): newline check first,
then `(` at V3 or the `+` simple-string fallback at V2. -/
def write_bignum (version : RespVersion) (v : List Nat) (sink : List Nat) :
    List Nat × Except RespError Unit :=
  if 10 ∈ v then (sink, .error .Newline)
  else if version = .V3 then (sink ++ [40] ++ v ++ crlf, .ok ())
  else (sink ++ [43] ++ v ++ crlf, .ok ())

/-- `RespWriter::write_blob_error` (`writer.rs:80-88`): unsupported in V2. -/
def write_blob_error (version : RespVersion) (v : List Nat)
    (sink : List Nat) : List Nat × Except RespError Unit :=
  if version = .V2 then (sink, .error .Version)
  else (sink ++ [33] ++ natToBytes v.length ++ crlf ++ v ++ crlf, .ok ())

/-- `RespWriter::write_blob_string` (`writer.rs:91-96`). -/
def write_blob_string (version : RespVersion) (v : List Nat)
    (sink : List Nat) : List Nat × Except RespError Unit :=
  (sink ++ [36] ++ natToBytes v.length ++ crlf ++ v ++ crlf, .ok ())

/-- `RespWriter::write_boolean` (`writer.rs:99-108`): `#t`/`#f` at V3,
`:1`/`:0` at V2. -/
def write_boolean (version : RespVersion) (b : Bool) (sink : List Nat) :
    List Nat × Except RespError Unit :=
  match version, b with
  | .V3, true => (sink ++ [35, 116, 13, 10], .ok ())
  | .V3, false => (sink ++ [35, 102, 13, 10], .ok ())
  | .V2, true => (sink ++ [58, 49, 13, 10], .ok ())
  | .V2, false => (sink ++ [58, 48, 13, 10], .ok ())

/-- `RespWriter::write_double` (`writer.rs:111-117`); `fmtD` models the
`Display` instance of `f64`. -/
def write_double {D : Type} (fmtD : D → List Nat) (version : RespVersion)
    (d : D) (sink : List Nat) : List Nat × Except RespError Unit :=
  if version = .V3 then (sink ++ [44] ++ fmtD d ++ crlf, .ok ())
  else (sink ++ [43] ++ fmtD d ++ crlf, .ok ())

/-- `RespWriter::write_integer` (`writer.rs:120-123`). -/
def write_integer (version : RespVersion) (i : Int) (sink : List Nat) :
    List Nat × Except RespError Unit :=
  (sink ++ [58] ++ intToBytes i ++ crlf, .ok ())

/-- `RespWriter::write_nil` (`writer.rs:126-132`): `_` at V3, the `$-1`
sentinel at V2. -/
def write_nil (version : RespVersion) (sink : List Nat) :
    List Nat × Except RespError Unit :=
  if version = .V3 then (sink ++ [95, 13, 10], .ok ())
  else (sink ++ [36, 45, 49, 13, 10], .ok ())

/-- `RespWriter::write_map` (`writer.rs:135-141`): `%n` at V3, `*2n`
at V2. -/
def write_map (version : RespVersion) (len : Nat) (sink : List Nat) :
    List Nat × Except RespError Unit :=
  if version = .V3 then (sink ++ [37] ++ natToBytes len ++ crlf, .ok ())
  else (sink ++ [42] ++ natToBytes (2 * len) ++ crlf, .ok ())

/-- `RespWriter::write_push` (`writer.rs:144-150`): `>n` at V3, `*n`
at V2. -/
def write_push (version : RespVersion) (len : Nat) (sink : List Nat) :
    List Nat × Except RespError Unit :=
  if version = .V3 then (sink ++ [62] ++ natToBytes len ++ crlf, .ok ())
  else (sink ++ [42] ++ natToBytes len ++ crlf, .ok ())

/-- `RespWriter::write_set` (`writer.rs:153-159`): `~n` at V3, `*n`
at V2. -/
def write_set (version : RespVersion) (len : Nat) (sink : List Nat) :
    List Nat × Except RespError Unit :=
  if version = .V3 then (sink ++ [126] ++ natToBytes len ++ crlf, .ok ())
  else (sink ++ [42] ++ natToBytes len ++ crlf, .ok ())

/-- `RespWriter::write_simple_error` (`writer.rs:162-170`): newline check
before any write. -/
def write_simple_error (version : RespVersion) (v : List Nat)
    (sink : List Nat) : List Nat × Except RespError Unit :=
  if 10 ∈ v then (sink, .error .Newline)
  else (sink ++ [45] ++ v ++ crlf, .ok ())

/-- `RespWriter::write_simple_string` (`writer.rs:173-181`): newline check
before any write. -/
def write_simple_string (version : RespVersion) (v : List Nat)
    (sink : List Nat) : List Nat × Except RespError Unit :=
  if 10 ∈ v then (sink, .error .Newline)
  else (sink ++ [43] ++ v ++ crlf, .ok ())

/-- `RespWriter::write_verbatim` (`writer.rs:184-197`): `=` framing at V3,
blob-string fallback dropping the format at V2. -/
def write_verbatim (version : RespVersion) (format v : List Nat)
    (sink : List Nat) : List Nat × Except RespError Unit :=
  if version = .V3 then
    (sink ++ [61] ++ natToBytes (format.length + 1 + v.length) ++ crlf ++
      format ++ [58] ++ v ++ crlf, .ok ())
  else (sink ++ [36] ++ natToBytes v.length ++ crlf ++ v ++ crlf, .ok ())

/-! ## Basic lemmas about the byte-level primitives -/

theorem require_append : ∀ (e rest : List Nat), require e (e ++ rest) = .ok rest
  | [], rest => rfl
  | b :: es, rest => by simp [require, require_append es rest]

theorem read_exact_append (v rest : List Nat) :
    read_exact v.length (v ++ rest) = .ok (v, rest) := by
  unfold read_exact
  rw [if_neg (by simp), List.take_left, List.drop_left]

theorem findCR_append : ∀ (line : List Nat), 13 ∉ line →
    ∀ rest : List Nat, findCR (line ++ 13 :: rest) = some line.length := by
  intro line
  induction line with
  | nil => intro _ rest; simp [findCR]
  | cons b line ih =>
    intro h rest
    have hb : ¬b = 13 := fun hb => h (by simp [hb])
    have ht : 13 ∉ line := fun hm => h (List.mem_cons_of_mem _ hm)
    simp [findCR, hb, ih ht rest]

theorem read_line_payload {line : List Nat} (h13 : 13 ∉ line) {il : Nat}
    (hlen : line.length < il) (rest : List Nat) :
    read_line il (line ++ 13 :: 10 :: rest) = .ok (line, rest) := by
  unfold read_line
  rw [findCR_append line h13 (10 :: rest)]
  simp only [hlen, if_pos, List.drop_left, List.take_left]
  simp [require]

theorem foldl_digit_le (ds : List Nat) :
    ∀ acc : Nat, acc ≤ ds.foldl (fun a d => a * 10 + (d - 48)) acc := by
  induction ds with
  | nil => simp
  | cons d ds ih =>
    intro acc
    calc acc ≤ acc * 10 + (d - 48) := by omega
    _ ≤ _ := by simpa using ih (acc * 10 + (d - 48))

theorem read_size_loop_digits : ∀ (ds : List Nat) (acc : Nat) (rest : List Nat),
    (∀ d ∈ ds, 48 ≤ d ∧ d ≤ 57) →
    ds.foldl (fun a d => a * 10 + (d - 48)) acc < USIZE →
    read_size_loop acc (ds ++ 13 :: 10 :: rest) =
      .ok (ds.foldl (fun a d => a * 10 + (d - 48)) acc, rest) := by
  intro ds
  induction ds with
  | nil => intro acc rest _ _; simp [read_size_loop, require]
  | cons d ds ih =>
    intro acc rest hd hlt
    obtain ⟨h1, h2⟩ := hd d (by simp)
    have hne : ¬d = 13 := by omega
    have hlt' : (ds.foldl (fun a d => a * 10 + (d - 48)) (acc * 10 + (d - 48))) < USIZE := by
      simpa using hlt
    have hstep : acc * 10 + (d - 48) < USIZE :=
      lt_of_le_of_lt (foldl_digit_le ds _) hlt'
    simp only [List.cons_append, read_size_loop, hne, if_false,
      if_pos (And.intro h1 h2), if_pos hstep, List.foldl_cons]
    exact ih (acc * 10 + (d - 48)) rest (fun x hx => hd x (by simp [hx])) hlt'

theorem read_size_digits (ds : List Nat) (rest : List Nat) (hne : ds ≠ [])
    (hd : ∀ d ∈ ds, 48 ≤ d ∧ d ≤ 57) (hlt : byteVal ds < USIZE) :
    read_size (ds ++ 13 :: 10 :: rest) = .ok (byteVal ds, rest) := by
  cases ds with
  | nil => exact absurd rfl hne
  | cons d ds =>
    obtain ⟨h1, h2⟩ := hd d (by simp)
    unfold read_size
    have hp : peek ((d :: ds) ++ 13 :: 10 :: rest) = some d := rfl
    rw [hp, if_neg (by simp; omega)]
    exact read_size_loop_digits (d :: ds) 0 rest hd hlt

/-! ## Lemmas about the decimal formatter -/

theorem natToBytesAux_mem : ∀ (fuel n d : Nat),
    d ∈ natToBytesAux fuel n → 48 ≤ d ∧ d ≤ 57 := by
  intro fuel
  induction fuel with
  | zero => intro n d h; simp [natToBytesAux] at h
  | succ fuel ih =>
    intro n d h
    simp only [natToBytesAux] at h
    split at h
    · simp at h
    · rcases List.mem_append.mp h with h | h
      · exact ih (n / 10) d h
      · simp at h; omega

theorem natToBytesAux_foldl : ∀ (fuel n : Nat), n ≤ fuel → ∀ acc : Nat,
    (natToBytesAux fuel n).foldl (fun a d => a * 10 + (d - 48)) acc =
      acc * 10 ^ (natToBytesAux fuel n).length + n := by
  intro fuel
  induction fuel with
  | zero =>
    intro n h acc
    have : n = 0 := by omega
    subst this
    simp [natToBytesAux]
  | succ fuel ih =>
    intro n h acc
    simp only [natToBytesAux]
    split
    · rename_i h0; subst h0; simp
    · rename_i h0
      have hdiv : n / 10 ≤ fuel := by
        have := Nat.div_lt_self (Nat.pos_of_ne_zero h0) (by norm_num : 1 < 10)
        omega
      rw [List.foldl_append, ih (n / 10) hdiv acc]
      simp only [List.foldl_cons, List.foldl_nil, List.length_append,
        List.length_cons, List.length_nil]
      have hmod : 48 ≤ n % 10 + 48 := by omega
      have hcalc : (acc * 10 ^ (natToBytesAux fuel (n / 10)).length + n / 10) * 10 +
          (n % 10 + 48 - 48) =
          acc * 10 ^ ((natToBytesAux fuel (n / 10)).length + 1) +
            (10 * (n / 10) + n % 10) := by
        rw [pow_succ]; ring_nf; omega
      rw [hcalc, Nat.div_add_mod]

theorem natToBytesAux_length : ∀ (fuel n k : Nat), n < 10 ^ k →
    (natToBytesAux fuel n).length ≤ k := by
  intro fuel
  induction fuel with
  | zero => intro n k _; simp [natToBytesAux]
  | succ fuel ih =>
    intro n k h
    simp only [natToBytesAux]
    split
    · simp
    · rename_i h0
      cases k with
      | zero => simp at h; omega
      | succ k =>
        have : n / 10 < 10 ^ k := by
          rw [Nat.div_lt_iff_lt_mul (by norm_num : 0 < 10)]
          calc n < 10 ^ (k + 1) := h
          _ = 10 ^ k * 10 := pow_succ 10 k
        simpa using ih (n / 10) k this

theorem natToBytes_mem (n d : Nat) (h : d ∈ natToBytes n) : 48 ≤ d ∧ d ≤ 57 := by
  unfold natToBytes at h
  split at h
  · simp at h; omega
  · exact natToBytesAux_mem n n d h

theorem natToBytes_ne_nil (n : Nat) : natToBytes n ≠ [] := by
  unfold natToBytes
  split
  · simp
  · rename_i h0
    cases n with
    | zero => exact absurd rfl h0
    | succ m => simp [natToBytesAux, h0]

theorem byteVal_natToBytes (n : Nat) : byteVal (natToBytes n) = n := by
  unfold natToBytes byteVal
  split
  · rename_i h0; subst h0; simp
  · rw [natToBytesAux_foldl n n le_rfl 0]; simp

theorem natToBytes_head (n : Nat) :
    ∃ d tl, natToBytes n = d :: tl ∧ 48 ≤ d ∧ d ≤ 57 := by
  cases h : natToBytes n with
  | nil => exact absurd h (natToBytes_ne_nil n)
  | cons d tl =>
    refine ⟨d, tl, rfl, ?_⟩
    exact natToBytes_mem n d (by rw [h]; simp)

theorem peek_natToBytes (n : Nat) (rest : List Nat) :
    ∃ d, peek (natToBytes n ++ rest) = some d ∧ 48 ≤ d ∧ d ≤ 57 := by
  obtain ⟨d, tl, heq, h1, h2⟩ := natToBytes_head n
  exact ⟨d, by simp [peek, heq], h1, h2⟩

theorem read_size_natToBytes (n : Nat) (h : n < USIZE) (rest : List Nat) :
    read_size (natToBytes n ++ 13 :: 10 :: rest) = .ok (n, rest) := by
  have := read_size_digits (natToBytes n) rest (natToBytes_ne_nil n)
    (fun d hd => natToBytes_mem n d hd) (by rw [byteVal_natToBytes]; exact h)
  rwa [byteVal_natToBytes] at this

theorem natToBytes_length_le (n k : Nat) (hk : 1 ≤ k) (h : n < 10 ^ k) :
    (natToBytes n).length ≤ k := by
  unfold natToBytes
  split
  · simpa using hk
  · exact natToBytesAux_length n n k h

theorem natToBytes_not_mem_13 (n : Nat) : 13 ∉ natToBytes n := by
  intro h
  have := natToBytes_mem n 13 h
  omega

/-! ## Lemmas about the integer parser model -/

theorem parseNat_natToBytes (n : Nat) : parseNat (natToBytes n) = some n := by
  unfold parseNat
  rw [if_neg (natToBytes_ne_nil n), if_pos, byteVal_natToBytes]
  unfold allDigits
  rw [List.all_eq_true]
  intro d hd
  exact decide_eq_true (natToBytes_mem n d hd)

theorem parseI64_intToBytes (i : Int) (h1 : -(2 : Int) ^ 63 ≤ i)
    (h2 : i < 2 ^ 63) : parseI64 (intToBytes i) = some i := by
  unfold intToBytes parseI64
  split
  · rename_i hneg
    have hh : (45 :: natToBytes i.natAbs).head? = some 45 := rfl
    rw [hh]
    rw [if_neg (by simp), if_pos rfl]
    simp only [List.tail_cons, parseNat_natToBytes, Option.some_bind]
    rw [if_pos (by omega)]
    congr 1
    omega
  · rename_i hpos
    obtain ⟨d, tl, heq, hd1, hd2⟩ := natToBytes_head i.toNat
    rw [heq]
    have hh : (d :: tl).head? = some d := rfl
    rw [hh, if_neg (by simp; omega), if_neg (by simp; omega), ← heq,
      parseNat_natToBytes]
    simp only [Option.some_bind]
    rw [if_pos (by omega)]
    congr 1
    omega

/-! ## Dispatch lemmas for `frame` -/

section FrameLemmas

variable {D : Type} (parseD : List Nat → Option D) (cfg : RespConfig)

theorem wrapF_ok (f : RespFrame D) (rest : List Nat) :
    wrapF (.ok (f, rest)) = .ok (some f, rest) := rfl

theorem wrapF_error (e : RespError) :
    wrapF (D := D) (.error e) = .error e := rfl

theorem frame_at_42 (xs : List Nat) :
    frame parseD cfg (42 :: xs) = wrapF (read_array cfg (42 :: xs)) := rfl

theorem frame_at_40 (xs : List Nat) :
    frame parseD cfg (40 :: xs) = wrapF (read_bignum cfg (40 :: xs)) := rfl

theorem frame_at_35 (xs : List Nat) :
    frame parseD cfg (35 :: xs) = wrapF (read_boolean cfg (35 :: xs)) := rfl

theorem frame_at_36 (xs : List Nat) :
    frame parseD cfg (36 :: xs) = wrapF (read_blob_string cfg (36 :: xs)) := rfl

theorem frame_at_44 (xs : List Nat) :
    frame parseD cfg (44 :: xs) = wrapF (read_double parseD cfg (44 :: xs)) := rfl

theorem frame_at_45 (xs : List Nat) :
    frame parseD cfg (45 :: xs) = wrapF (read_error cfg (45 :: xs)) := rfl

theorem frame_at_58 (xs : List Nat) :
    frame parseD cfg (58 :: xs) = wrapF (read_integer cfg (58 :: xs)) := rfl

theorem frame_at_37 (xs : List Nat) :
    frame parseD cfg (37 :: xs) = wrapF (read_map cfg (37 :: xs)) := rfl

theorem frame_at_95 (xs : List Nat) :
    frame parseD cfg (95 :: xs) = wrapF (read_nil cfg (95 :: xs)) := rfl

theorem frame_at_62 (xs : List Nat) :
    frame parseD cfg (62 :: xs) = wrapF (read_push cfg (62 :: xs)) := rfl

theorem frame_at_126 (xs : List Nat) :
    frame parseD cfg (126 :: xs) = wrapF (read_set cfg (126 :: xs)) := rfl

theorem frame_at_43 (xs : List Nat) :
    frame parseD cfg (43 :: xs) = wrapF (read_simple_string cfg (43 :: xs)) := rfl

theorem frame_at_61 (xs : List Nat) :
    frame parseD cfg (61 :: xs) = wrapF (read_verbatim cfg (61 :: xs)) := rfl

theorem frame_at_33 (xs : List Nat) :
    frame parseD cfg (33 :: xs) = wrapF (read_blob_error cfg (33 :: xs)) := rfl

theorem frame_at_124 (xs : List Nat) :
    frame parseD cfg (124 :: xs) = wrapF (read_attribute cfg (124 :: xs)) := rfl

end FrameLemmas

/-! ## Round-trip lemmas: decoding writer output -/

section RoundTrip

variable {D : Type} (parseD : List Nat → Option D) (cfg : RespConfig)

theorem require_one (b : Nat) (rest : List Nat) :
    require [b] (b :: rest) = .ok rest := by simp [require]

theorem require_crlf (rest : List Nat) :
    require [13, 10] (13 :: 10 :: rest) = .ok rest := by simp [require]

theorem read_array_rt (n : Nat) (extra : List Nat) (hn : n < USIZE) :
    read_array (D := D) cfg (42 :: (natToBytes n ++ 13 :: 10 :: extra)) =
      .ok (.Array n, extra) := by
  obtain ⟨d, hp, h48, h57⟩ := peek_natToBytes n (13 :: 10 :: extra)
  unfold read_array
  rw [require_one]
  dsimp only
  rw [hp, if_neg (by simp; omega), read_size_natToBytes n hn]

theorem read_array_nil (extra : List Nat) :
    read_array (D := D) cfg (42 :: 45 :: 49 :: 13 :: 10 :: extra) =
      .ok (.Nil, extra) := rfl

theorem read_map_rt (n : Nat) (extra : List Nat) (hn : n < USIZE) :
    read_map (D := D) cfg (37 :: (natToBytes n ++ 13 :: 10 :: extra)) =
      .ok (.Map n, extra) := by
  unfold read_map
  rw [require_one]
  dsimp only
  rw [read_size_natToBytes n hn]

theorem read_push_rt (n : Nat) (extra : List Nat) (hn : n < USIZE) :
    read_push (D := D) cfg (62 :: (natToBytes n ++ 13 :: 10 :: extra)) =
      .ok (.Push n, extra) := by
  unfold read_push
  rw [require_one]
  dsimp only
  rw [read_size_natToBytes n hn]

theorem read_set_rt (n : Nat) (extra : List Nat) (hn : n < USIZE) :
    read_set (D := D) cfg (126 :: (natToBytes n ++ 13 :: 10 :: extra)) =
      .ok (.Set n, extra) := by
  unfold read_set
  rw [require_one]
  dsimp only
  rw [read_size_natToBytes n hn]

theorem read_attribute_rt (n : Nat) (extra : List Nat) (hn : n < USIZE) :
    read_attribute (D := D) cfg (124 :: (natToBytes n ++ 13 :: 10 :: extra)) =
      .ok (.Attribute n, extra) := by
  unfold read_attribute
  rw [require_one]
  dsimp only
  rw [read_size_natToBytes n hn]

theorem read_blob_string_rt (v extra : List Nat) (hn : v.length < USIZE)
    (hb : v.length ≤ cfg.blob_limit) :
    read_blob_string (D := D) cfg
        (36 :: (natToBytes v.length ++ 13 :: 10 :: (v ++ 13 :: 10 :: extra))) =
      .ok (.BlobString v, extra) := by
  obtain ⟨d, hp, h48, h57⟩ := peek_natToBytes v.length (13 :: 10 :: (v ++ 13 :: 10 :: extra))
  unfold read_blob_string
  rw [require_one]
  dsimp only
  rw [hp, if_neg (by simp; omega), read_size_natToBytes v.length hn]
  dsimp only
  rw [if_neg (by omega), read_exact_append v (13 :: 10 :: extra)]
  dsimp only
  rw [require_crlf]

theorem read_blob_string_nil (extra : List Nat) :
    read_blob_string (D := D) cfg (36 :: 45 :: 49 :: 13 :: 10 :: extra) =
      .ok (.Nil, extra) := rfl

theorem read_blob_error_rt (v extra : List Nat) (hn : v.length < USIZE)
    (hb : v.length ≤ cfg.blob_limit) :
    read_blob_error (D := D) cfg
        (33 :: (natToBytes v.length ++ 13 :: 10 :: (v ++ 13 :: 10 :: extra))) =
      .ok (.BlobError v, extra) := by
  unfold read_blob_error
  rw [require_one]
  dsimp only
  rw [read_size_natToBytes v.length hn]
  dsimp only
  rw [if_neg (by omega), read_exact_append v (13 :: 10 :: extra)]
  dsimp only
  rw [require_crlf]

theorem read_boolean_true (extra : List Nat) :
    read_boolean (D := D) cfg (35 :: 116 :: 13 :: 10 :: extra) =
      .ok (.Boolean true, extra) := rfl

theorem read_boolean_false (extra : List Nat) :
    read_boolean (D := D) cfg (35 :: 102 :: 13 :: 10 :: extra) =
      .ok (.Boolean false, extra) := rfl

theorem read_nil_rt (extra : List Nat) :
    read_nil (D := D) cfg (95 :: 13 :: 10 :: extra) = .ok (.Nil, extra) := rfl

theorem read_bignum_rt (v extra : List Nat) (h13 : 13 ∉ v)
    (hl : v.length < cfg.inline_limit) :
    read_bignum (D := D) cfg (40 :: (v ++ 13 :: 10 :: extra)) =
      .ok (.Bignum v, extra) := by
  unfold read_bignum
  rw [require_one]
  dsimp only
  rw [read_line_payload h13 hl extra]

theorem read_simple_string_rt (v extra : List Nat) (h13 : 13 ∉ v)
    (hl : v.length < cfg.inline_limit) :
    read_simple_string (D := D) cfg (43 :: (v ++ 13 :: 10 :: extra)) =
      .ok (.SimpleString v, extra) := by
  unfold read_simple_string
  rw [require_one]
  dsimp only
  rw [read_line_payload h13 hl extra]

theorem read_error_rt (v extra : List Nat) (h13 : 13 ∉ v)
    (hl : v.length < cfg.inline_limit) :
    read_error (D := D) cfg (45 :: (v ++ 13 :: 10 :: extra)) =
      .ok (.SimpleError v, extra) := by
  unfold read_error
  rw [require_one]
  dsimp only
  rw [read_line_payload h13 hl extra]

theorem read_double_rt (line extra : List Nat) (d : D) (h13 : 13 ∉ line)
    (hl : line.length < cfg.inline_limit) (hparse : parseD line = some d) :
    read_double parseD cfg (44 :: (line ++ 13 :: 10 :: extra)) =
      .ok (.Double d, extra) := by
  unfold read_double
  rw [require_one]
  dsimp only
  rw [read_line_payload h13 hl extra]
  dsimp only
  rw [hparse]

theorem intToBytes_not_mem_13 (i : Int) : 13 ∉ intToBytes i := by
  unfold intToBytes
  split
  · intro h
    rcases List.mem_cons.mp h with h | h
    · omega
    · exact natToBytes_not_mem_13 _ h
  · exact natToBytes_not_mem_13 _

theorem intToBytes_length_le (i : Int) (h1 : -(2 : Int) ^ 63 ≤ i)
    (h2 : i < 2 ^ 63) : (intToBytes i).length ≤ 21 := by
  have hpow : (2 : Nat) ^ 64 < 10 ^ 20 := by norm_num
  unfold intToBytes
  split
  · rename_i hneg
    have : i.natAbs < 10 ^ 20 := by
      have : i.natAbs ≤ 2 ^ 63 := by omega
      have h63 : (2 : Nat) ^ 63 < 2 ^ 64 := by norm_num
      omega
    have hlen := natToBytes_length_le i.natAbs 20 (by norm_num) this
    simp only [List.length_cons]
    omega
  · rename_i hpos
    have : i.toNat < 10 ^ 20 := by
      have : i.toNat < 2 ^ 63 := by omega
      have h63 : (2 : Nat) ^ 63 < 2 ^ 64 := by norm_num
      omega
    exact le_trans (natToBytes_length_le i.toNat 20 (by norm_num) this) (by norm_num)

theorem read_integer_rt (i : Int) (extra : List Nat)
    (h1 : -(2 : Int) ^ 63 ≤ i) (h2 : i < 2 ^ 63)
    (hl : (intToBytes i).length < cfg.inline_limit) :
    read_integer (D := D) cfg (58 :: (intToBytes i ++ 13 :: 10 :: extra)) =
      .ok (.Integer i, extra) := by
  unfold read_integer
  rw [require_one]
  dsimp only
  rw [read_line_payload (intToBytes_not_mem_13 i) hl extra]
  dsimp only
  rw [parseI64_intToBytes i h1 h2]

theorem read_verbatim_rt (format v extra : List Nat) (hf : format.length = 3)
    (hb : 4 + v.length ≤ cfg.blob_limit) (hn : 4 + v.length < USIZE) :
    read_verbatim (D := D) cfg
        (61 :: (natToBytes (format.length + 1 + v.length) ++
          13 :: 10 :: ((format ++ 58 :: v) ++ 13 :: 10 :: extra))) =
      .ok (.Verbatim format v, extra) := by
  have hsz : format.length + 1 + v.length = 4 + v.length := by omega
  have hlen : (format ++ 58 :: v).length = 4 + v.length := by simp [hf]; omega
  unfold read_verbatim
  rw [require_one]
  dsimp only
  rw [hsz, read_size_natToBytes (4 + v.length) hn]
  dsimp only
  rw [if_neg (by omega), if_neg (by omega)]
  rw [show (4 + v.length) = (format ++ 58 :: v).length from hlen.symm,
    read_exact_append (format ++ 58 :: v) (13 :: 10 :: extra)]
  dsimp only
  have hget : (format ++ 58 :: v)[3]? = some 58 := by
    rw [List.getElem?_append_right (by omega)]
    simp [hf]
  rw [if_neg (by simp [hget])]
  have htake : (format ++ 58 :: v).take 3 = format := by
    rw [← hf, List.take_left]
  have hdrop : (format ++ 58 :: v).drop 4 = v := by
    have : format ++ 58 :: v = (format ++ [58]) ++ v := by simp
    rw [this, show (4 : Nat) = (format ++ [58]).length by simp [hf],
      List.drop_left]
  rw [htake, hdrop]
  rw [require_crlf]

end RoundTrip

/-! ## Error-case lemmas for `read_size` -/

theorem read_size_loop_nondigit : ∀ (ds : List Nat) (acc b : Nat) (rest : List Nat),
    (∀ d ∈ ds, 48 ≤ d ∧ d ≤ 57) → ¬(48 ≤ b ∧ b ≤ 57) → b ≠ 13 →
    read_size_loop acc (ds ++ b :: rest) = .error .InvalidBlobLength := by
  intro ds
  induction ds with
  | nil =>
    intro acc b rest _ hb h13
    simp only [List.nil_append, read_size_loop]
    rw [if_neg h13, if_neg hb]
  | cons d ds ih =>
    intro acc b rest hd hb h13
    obtain ⟨h1, h2⟩ := hd d (by simp)
    have hne : ¬d = 13 := by omega
    simp only [List.cons_append, read_size_loop]
    rw [if_neg hne, if_pos (And.intro h1 h2)]
    split
    · exact ih _ b rest (fun x hx => hd x (by simp [hx])) hb h13
    · rfl

theorem read_size_nondigit (ds : List Nat) (b : Nat) (rest : List Nat)
    (hd : ∀ d ∈ ds, 48 ≤ d ∧ d ≤ 57) (hb : ¬(48 ≤ b ∧ b ≤ 57)) (h13 : b ≠ 13) :
    read_size (ds ++ b :: rest) = .error .InvalidBlobLength := by
  unfold read_size
  cases ds with
  | nil =>
    rw [if_neg (by simp [peek]; exact h13)]
    exact read_size_loop_nondigit [] 0 b rest (by simp) hb h13
  | cons d ds' =>
    obtain ⟨h1, h2⟩ := hd d (by simp)
    rw [if_neg (by simp [peek]; omega)]
    exact read_size_loop_nondigit (d :: ds') 0 b rest hd hb h13

theorem read_size_loop_overflow : ∀ (ds : List Nat) (acc : Nat) (rest : List Nat),
    (∀ d ∈ ds, 48 ≤ d ∧ d ≤ 57) → acc < USIZE →
    USIZE ≤ ds.foldl (fun a d => a * 10 + (d - 48)) acc →
    read_size_loop acc (ds ++ rest) = .error .InvalidBlobLength := by
  intro ds
  induction ds with
  | nil =>
    intro acc rest _ hacc hof
    simp only [List.foldl_nil] at hof
    exact absurd hof (by omega)
  | cons d ds ih =>
    intro acc rest hd hacc hof
    obtain ⟨h1, h2⟩ := hd d (by simp)
    have hne : ¬d = 13 := by omega
    simp only [List.cons_append, read_size_loop]
    rw [if_neg hne, if_pos (And.intro h1 h2)]
    split
    · rename_i hlt
      exact ih _ rest (fun x hx => hd x (by simp [hx])) hlt (by simpa using hof)
    · rfl

theorem read_size_overflow (ds rest : List Nat) (hne : ds ≠ [])
    (hd : ∀ d ∈ ds, 48 ≤ d ∧ d ≤ 57) (hof : USIZE ≤ byteVal ds) :
    read_size (ds ++ rest) = .error .InvalidBlobLength := by
  have h0 : (0 : Nat) < USIZE := by norm_num [USIZE]
  unfold read_size
  cases ds with
  | nil => exact absurd rfl hne
  | cons d ds' =>
    obtain ⟨h1, h2⟩ := hd d (by simp)
    rw [if_neg (by simp [peek]; omega)]
    exact read_size_loop_overflow (d :: ds') 0 rest hd h0 hof

theorem read_size_empty (rest : List Nat) :
    read_size (13 :: rest) = .error .InvalidBlobLength := rfl

/-! ## Uniqueness invariants of the value builder -/

section ValueInvariants

variable {D : Type}

theorem mapLoop_nodup
    (child : List Nat → Except RespError (Option (RespValue D) × List Nat)) :
    ∀ (n : Nat) (m : List (RespPrimitive × RespValue D)) (input : List Nat)
      (m' : List (RespPrimitive × RespValue D)) (rest : List Nat),
    mapLoop child n m input = .ok (m', rest) →
    (m.map Prod.fst).Nodup → (m'.map Prod.fst).Nodup := by
  intro n
  induction n with
  | zero =>
    intro m input m' rest h hm
    unfold mapLoop at h
    cases h
    exact hm
  | succ n ih =>
    intro m input m' rest h hm
    unfold mapLoop at h
    split at h
    · exact absurd h (by simp)
    · split at h
      · exact absurd h (by simp)
      · split at h
        · exact absurd h (by simp)
        · split at h
          · exact absurd h (by simp)
          · rename_i hk
            refine ih _ _ m' rest h ?_
            simp only [List.map_append, List.map_cons, List.map_nil]
            rw [List.nodup_append]
            refine ⟨hm, List.nodup_singleton _, ?_⟩
            simpa using hk

theorem setLoop_nodup
    (child : List Nat → Except RespError (Option (RespValue D) × List Nat)) :
    ∀ (n : Nat) (s : List RespPrimitive) (input : List Nat)
      (s' : List RespPrimitive) (rest : List Nat),
    setLoop child n s input = .ok (s', rest) → s.Nodup → s'.Nodup := by
  intro n
  induction n with
  | zero =>
    intro s input s' rest h hs
    unfold setLoop at h
    cases h
    exact hs
  | succ n ih =>
    intro s input s' rest h hs
    unfold setLoop at h
    split at h
    · exact absurd h (by simp)
    · split at h
      · exact absurd h (by simp)
      · split at h
        · exact absurd h (by simp)
        · rename_i hk
          refine ih _ _ s' rest h ?_
          rw [List.nodup_append]
          refine ⟨hs, List.nodup_singleton _, ?_⟩
          simpa using hk

theorem mapLoop_dup
    (child : List Nat → Except RespError (Option (RespValue D) × List Nat))
    (n : Nat) (m : List (RespPrimitive × RespValue D))
    (input input1 input2 : List Nat) (kv v : RespValue D) (k : RespPrimitive)
    (hc1 : requireChild child input = .ok (kv, input1))
    (hk : toPrimitive kv = .ok k)
    (hmem : k ∈ m.map Prod.fst)
    (hc2 : requireChild child input1 = .ok (v, input2)) :
    mapLoop child (n + 1) m input = .error .InvalidMap := by
  unfold mapLoop
  rw [hc1]
  dsimp only
  rw [hk]
  dsimp only
  rw [hc2]
  dsimp only
  rw [if_pos hmem]

theorem setLoop_dup
    (child : List Nat → Except RespError (Option (RespValue D) × List Nat))
    (n : Nat) (s : List RespPrimitive) (input input1 : List Nat)
    (kv : RespValue D) (k : RespPrimitive)
    (hc1 : requireChild child input = .ok (kv, input1))
    (hk : toPrimitive kv = .ok k)
    (hmem : k ∈ s) :
    setLoop child (n + 1) s input = .error .InvalidSet := by
  unfold setLoop
  rw [hc1]
  dsimp only
  rw [hk]
  dsimp only
  rw [if_pos hmem]

theorem value_map_nodup (parseD : List Nat → Option D) (cfg : RespConfig) :
    ∀ (fuel : Nat) (input : List Nat)
      (m : List (RespPrimitive × RespValue D)) (rest : List Nat),
    value parseD cfg fuel input = .ok (some (.Map m), rest) →
    (m.map Prod.fst).Nodup := by
  intro fuel input m rest h
  cases fuel with
  | zero => exact absurd h (by simp [value])
  | succ fuel =>
    unfold value at h
    split at h
    · exact absurd h (by simp)
    · exact absurd h (by simp)
    · split at h
      · split at h
        · exact absurd h (by simp)
        · exact absurd h (by simp)
      · split at h
        · exact absurd h (by simp)
        · exact absurd h (by simp)
      · exact absurd h (by simp)
      · exact absurd h (by simp)
      · exact absurd h (by simp)
      · exact absurd h (by simp)
      · exact absurd h (by simp)
      · exact absurd h (by simp)
      · split at h
        · exact absurd h (by simp)
        · rename_i hloop
          simp only [Except.ok.injEq, Prod.mk.injEq, Option.some.injEq,
            RespValue.Map.injEq] at h
          obtain ⟨h1, h2⟩ := h
          subst h1
          subst h2
          exact mapLoop_nodup _ _ _ _ _ _ hloop (by simp)
      · exact absurd h (by simp)
      · split at h
        · exact absurd h (by simp)
        · exact absurd h (by simp)
      · split at h
        · exact absurd h (by simp)
        · exact absurd h (by simp)
      · exact absurd h (by simp)
      · exact absurd h (by simp)
      · exact absurd h (by simp)

theorem value_attribute_nodup (parseD : List Nat → Option D) (cfg : RespConfig) :
    ∀ (fuel : Nat) (input : List Nat)
      (m : List (RespPrimitive × RespValue D)) (rest : List Nat),
    value parseD cfg fuel input = .ok (some (.Attribute m), rest) →
    (m.map Prod.fst).Nodup := by
  intro fuel input m rest h
  cases fuel with
  | zero => exact absurd h (by simp [value])
  | succ fuel =>
    unfold value at h
    split at h
    · exact absurd h (by simp)
    · exact absurd h (by simp)
    · split at h
      · split at h
        · exact absurd h (by simp)
        · exact absurd h (by simp)
      · split at h
        · exact absurd h (by simp)
        · rename_i hloop
          simp only [Except.ok.injEq, Prod.mk.injEq, Option.some.injEq,
            RespValue.Attribute.injEq] at h
          obtain ⟨h1, h2⟩ := h
          subst h1
          subst h2
          exact mapLoop_nodup _ _ _ _ _ _ hloop (by simp)
      · exact absurd h (by simp)
      · exact absurd h (by simp)
      · exact absurd h (by simp)
      · exact absurd h (by simp)
      · exact absurd h (by simp)
      · exact absurd h (by simp)
      · split at h
        · exact absurd h (by simp)
        · exact absurd h (by simp)
      · exact absurd h (by simp)
      · split at h
        · exact absurd h (by simp)
        · exact absurd h (by simp)
      · split at h
        · exact absurd h (by simp)
        · exact absurd h (by simp)
      · exact absurd h (by simp)
      · exact absurd h (by simp)
      · exact absurd h (by simp)

theorem value_set_nodup (parseD : List Nat → Option D) (cfg : RespConfig) :
    ∀ (fuel : Nat) (input : List Nat)
      (s : List RespPrimitive) (rest : List Nat),
    value parseD cfg fuel input = .ok (some (.Set s), rest) → s.Nodup := by
  intro fuel input s rest h
  cases fuel with
  | zero => exact absurd h (by simp [value])
  | succ fuel =>
    unfold value at h
    split at h
    · exact absurd h (by simp)
    · exact absurd h (by simp)
    · split at h
      · split at h
        · exact absurd h (by simp)
        · exact absurd h (by simp)
      · split at h
        · exact absurd h (by simp)
        · exact absurd h (by simp)
      · exact absurd h (by simp)
      · exact absurd h (by simp)
      · exact absurd h (by simp)
      · exact absurd h (by simp)
      · exact absurd h (by simp)
      · exact absurd h (by simp)
      · split at h
        · exact absurd h (by simp)
        · exact absurd h (by simp)
      · exact absurd h (by simp)
      · split at h
        · exact absurd h (by simp)
        · exact absurd h (by simp)
      · split at h
        · exact absurd h (by simp)
        · rename_i hloop
          simp only [Except.ok.injEq, Prod.mk.injEq, Option.some.injEq,
            RespValue.Set.injEq] at h
          obtain ⟨h1, h2⟩ := h
          subst h1
          subst h2
          exact setLoop_nodup _ _ _ _ _ _ hloop (by simp)
      · exact absurd h (by simp)
      · exact absurd h (by simp)
      · exact absurd h (by simp)

end ValueInvariants

/-! ## Lemmas about the request tokenizer -/

theorem argsStep_no_error (cfg : RespConfig) (c : Nat) (args : List (List Nat))
    (input : List Nat) (o : Option RespRequest) (st' : ReaderState)
    (h : argsStep cfg c args input = .ok (o, st')) :
    ∀ e, o ≠ some (.Error e) := by
  intro e
  unfold argsStep at h
  split at h
  · cases h; simp
  · split at h
    · exact absurd h (by simp)
    · split at h
      · exact absurd h (by simp)
      · split at h
        · exact absurd h (by simp)
        · split at h
          · exact absurd h (by simp)
          · split at h
            · exact absurd h (by simp)
            · cases h; simp

theorem splittingStep_no_error (args : List (List Nat)) (input : List Nat)
    (o : Option RespRequest) (st' : ReaderState)
    (h : splittingStep args input = .ok (o, st')) :
    ∀ e, o ≠ some (.Error e) := by
  intro e
  unfold splittingStep at h
  split at h
  · cases h; simp
  · cases h; simp

theorem request_no_error (cfg : RespConfig) (st : ReaderState)
    (o : Option RespRequest) (st' : ReaderState)
    (h : request cfg st = .ok (o, st')) : ∀ e, o ≠ some (.Error e) := by
  unfold request at h
  split at h
  · exact argsStep_no_error cfg _ _ _ o st' h
  · cases h; simp
  · exact splittingStep_no_error _ _ o st' h
  · split at h
    · cases h; simp
    · split at h
      · split at h
        · exact absurd h (by simp)
        · split at h
          · exact absurd h (by simp)
          · exact argsStep_no_error cfg _ _ _ o st' h
      · split at h
        · exact absurd h (by simp)
        · split at h
          · exact splittingStep_no_error _ _ o st' h
          · cases h; simp

theorem requestsList_nil_of_none (cfg : RespConfig) :
    ∀ fuel : Nat, requestsList cfg fuel none = [] := by
  intro fuel
  cases fuel <;> rfl

/-- The `Init`-state handling of one malformed inline line: the line is
consumed, the splitter queue is discarded, one `InvalidArgument` is
returned, and the state is back at `Init` over the remaining input. -/
theorem request_invalid_line (cfg : RespConfig) (line rest : List Nat)
    (args : List (List Nat)) (h13 : 13 ∉ line)
    (hlen : line.length < cfg.inline_limit) (hstar : line.head? ≠ some 42)
    (hsplit : split line = none) :
    request cfg ⟨.Init, args, line ++ 13 :: 10 :: rest⟩ =
      .ok (some .InvalidArgument, ⟨.Init, [], rest⟩) := by
  unfold request
  dsimp only
  cases hline : line with
  | nil =>
    subst hline
    simp only [List.nil_append]
    have hp : peek (13 :: 10 :: rest) = some 13 := rfl
    rw [hp]
    dsimp only
    rw [if_neg (by simp)]
    rw [show (13 : Nat) :: 10 :: rest = ([] : List Nat) ++ 13 :: 10 :: rest from rfl,
      read_line_payload h13 hlen rest]
    dsimp only
    rw [hsplit]
  | cons b tl =>
    have hb : peek ((b :: tl) ++ 13 :: 10 :: rest) = some b := rfl
    rw [hb]
    dsimp only
    have hb42 : ¬b = 42 := by
      intro hb42
      exact hstar (by simp [hline, hb42])
    rw [if_neg hb42, ← hline, read_line_payload h13 hlen rest]
    dsimp only
    rw [hsplit]

/-! ## Blob-limit check lemmas (the check precedes the payload read) -/

theorem read_size_ok_head (input : List Nat) (size : Nat) (rest : List Nat)
    (h : read_size input = .ok (size, rest)) :
    ∃ d tl, input = d :: tl ∧ 48 ≤ d ∧ d ≤ 57 := by
  unfold read_size at h
  split at h
  · exact absurd h (by simp)
  · rename_i hpeek
    cases input with
    | nil => exact absurd h (by simp [read_size_loop])
    | cons b tl =>
      refine ⟨b, tl, rfl, ?_⟩
      unfold read_size_loop at h
      split at h
      · rename_i hb13
        exact absurd (show peek (b :: tl) = some 13 by simp [peek, hb13]) hpeek
      · split at h
        · rename_i hdig
          exact hdig
        · exact absurd h (by simp)

section LimitLemmas

variable {D : Type}

theorem read_blob_string_limit (cfg : RespConfig) (input : List Nat)
    (size : Nat) (rest : List Nat) (hrs : read_size input = .ok (size, rest))
    (hgt : size > cfg.blob_limit) :
    read_blob_string (D := D) cfg (36 :: input) = .error .InvalidBlobLength := by
  obtain ⟨d, tl, heq, h1, h2⟩ := read_size_ok_head input size rest hrs
  unfold read_blob_string
  rw [require_one]
  dsimp only
  have hp : peek input = some d := by rw [heq]; rfl
  rw [hp, if_neg (by simp; omega), hrs]
  dsimp only
  rw [if_pos hgt]

theorem read_verbatim_limit (cfg : RespConfig) (input : List Nat)
    (size : Nat) (rest : List Nat) (hrs : read_size input = .ok (size, rest))
    (hgt : size > cfg.blob_limit) :
    read_verbatim (D := D) cfg (61 :: input) = .error .InvalidBlobLength := by
  unfold read_verbatim
  rw [require_one]
  dsimp only
  rw [hrs]
  dsimp only
  rw [if_pos hgt]

theorem read_blob_error_limit (cfg : RespConfig) (input : List Nat)
    (size : Nat) (rest : List Nat) (hrs : read_size input = .ok (size, rest))
    (hgt : size > cfg.blob_limit) :
    read_blob_error (D := D) cfg (33 :: input) = .error .InvalidBlobLength := by
  unfold read_blob_error
  rw [require_one]
  dsimp only
  rw [hrs]
  dsimp only
  rw [if_pos hgt]

theorem request_args_limit (cfg : RespConfig) (c : Nat)
    (args : List (List Nat)) (input : List Nat) (size : Nat)
    (rest : List Nat) (hrs : read_size input = .ok (size, rest))
    (hgt : size > cfg.blob_limit) :
    request cfg ⟨.Args (c + 1), args, 36 :: input⟩ =
      .error .InvalidBlobLength := by
  unfold request
  dsimp only
  unfold argsStep
  rw [require_one]
  dsimp only
  rw [hrs]
  dsimp only
  rw [if_pos hgt]

end LimitLemmas

/-! ## Shape lemmas for `:`-prefixed input -/

theorem wrapF_eq_ok {D : Type} (r : Except RespError (RespFrame D × List Nat))
    (f : RespFrame D) (rest : List Nat) (h : wrapF r = .ok (some f, rest)) :
    r = .ok (f, rest) := by
  cases r with
  | error e => exact absurd h (by simp [wrapF])
  | ok p =>
    obtain ⟨f', rest'⟩ := p
    simp only [wrapF, Except.ok.injEq, Prod.mk.injEq, Option.some.injEq] at h
    rw [h.1, h.2]

theorem read_integer_ok_shape {D : Type} (cfg : RespConfig) (input : List Nat)
    (f : RespFrame D) (rest : List Nat)
    (h : read_integer cfg input = .ok (f, rest)) : ∃ i, f = .Integer i := by
  unfold read_integer at h
  split at h
  · exact absurd h (by simp)
  · split at h
    · exact absurd h (by simp)
    · split at h
      · exact absurd h (by simp)
      · rename_i i hi
        simp only [Except.ok.injEq, Prod.mk.injEq] at h
        exact ⟨i, h.1.symm⟩

/-! ## Claim theorems -/

/-- C2: on the exact input `"*2\r\n$1\r\nx\r\n$2\r\nab\r\n*1\r\n$1\r\nz\r\n"`
the request stream yields `Argument "x"`, `Argument "ab"`, `End`,
`Argument "z"`, `End`, and nothing afterwards: with any amount of further
fuel beyond the six pulls the produced item list is exactly those five
items (the sixth pull observes the exhausted source, moves to `Done`, and
closes the stream). -/
theorem c2_request_tokenizer_sample (k : Nat) :
    requestsList defaultConfig (k + 6)
        (some (initState
          [42, 50, 13, 10, 36, 49, 13, 10, 120, 13, 10, 36, 50, 13, 10,
           97, 98, 13, 10, 42, 49, 13, 10, 36, 49, 13, 10, 122, 13, 10])) =
      [.Argument [120], .Argument [97, 98], .End, .Argument [122], .End] := rfl

/-- C3: an `Error` item is terminal: in every list of items produced by the
`requests` stream (any fuel, any starting state), whatever follows an
`Error` item is empty — the stream drops the reader after emitting the
error, so no further items of any kind are produced even if the source
still has bytes. -/
theorem c3_error_terminal (cfg : RespConfig) (fuel : Nat)
    (ost : Option ReaderState) (pre suf : List RespRequest) (e : RespError)
    (h : requestsList cfg fuel ost = pre ++ .Error e :: suf) : suf = [] := by
  induction fuel generalizing ost pre with
  | zero => cases pre <;> simp [requestsList] at h
  | succ fuel ih =>
    unfold requestsList at h
    split at h
    · cases pre <;> simp at h
    · rename_i r ost' heq
      cases pre with
      | cons p pre' =>
        simp only [List.cons_append, List.cons.injEq] at h
        exact ih ost' pre' h.2
      | nil =>
        simp only [List.nil_append, List.cons.injEq] at h
        obtain ⟨hr, hrl⟩ := h
        subst hr
        unfold requestsStep at heq
        split at heq
        · exact absurd heq (by simp)
        · rename_i st
          split at heq
          · exact absurd heq (by simp)
          · rename_i r2 st2 hreq
            simp only [Option.some.injEq, Prod.mk.injEq] at heq
            exact absurd (by rw [heq.1])
              (request_no_error cfg st _ _ hreq e)
          · rename_i e2 hreq
            simp only [Option.some.injEq, Prod.mk.injEq] at heq
            rw [← hrl, ← heq.2]
            exact requestsList_nil_of_none cfg fuel

/-- C3 witness: the stream for `"*\r\n"` produces exactly one terminal
`Error InvalidBlobLength` item, and the theorem applies to it. -/
theorem c3_error_terminal_witness :
    requestsList defaultConfig 2 (some (initState [42, 13, 10])) =
      [] ++ .Error .InvalidBlobLength :: [] ∧ ([] : List RespRequest) = [] :=
  ⟨rfl, c3_error_terminal defaultConfig 2 (some (initState [42, 13, 10]))
    [] [] .InvalidBlobLength rfl⟩

/-- C4: whenever the inline splitter rejects a line (`split line = none` —
unterminated quote, closing quote followed by a non-whitespace byte, …),
the tokenizer consumes exactly that line, returns a single
`InvalidArgument` item, discards any queued splitter tokens, and is back in
the `Init` state over the remaining input — the stream is not terminated
and subsequent requests parse normally. -/
theorem c4_invalid_inline_is_per_line (cfg : RespConfig)
    (line rest : List Nat) (args : List (List Nat))
    (hmal : split line = none) (h13 : 13 ∉ line)
    (hlen : line.length < cfg.inline_limit) (hstar : line.head? ≠ some 42) :
    request cfg ⟨.Init, args, line ++ 13 :: 10 :: rest⟩ =
      .ok (some .InvalidArgument, ⟨.Init, [], rest⟩) :=
  request_invalid_line cfg line rest args h13 hlen hstar hmal

/-- C4 witness: the malformed line `"foo 'bar"` (unterminated quote) inside
a larger stream yields `InvalidArgument` once and parsing resumes at the
following line. -/
theorem c4_invalid_inline_witness :
    request defaultConfig
        ⟨.Init, [], [102, 111, 111, 32, 39, 98, 97, 114] ++
          13 :: 10 :: [98, 97, 122, 13, 10]⟩ =
      .ok (some .InvalidArgument, ⟨.Init, [], [98, 97, 122, 13, 10]⟩) :=
  c4_invalid_inline_is_per_line defaultConfig
    [102, 111, 111, 32, 39, 98, 97, 114] [98, 97, 122, 13, 10] []
    rfl (by decide) (by decide) (by decide)

/-- C5: for all four length-prefixed consumers (blob string, verbatim,
blob error, request argument), a declared size above `blob_limit` fails
with `InvalidBlobLength` immediately after the size line is parsed — the
conclusion holds with no assumption on the bytes after the size line, so
in particular when the source holds fewer than `size` payload bytes. -/
theorem c5_blob_limit_before_payload :
    (∀ (D : Type) (cfg : RespConfig) (input : List Nat) (size : Nat)
        (rest : List Nat), read_size input = .ok (size, rest) →
      size > cfg.blob_limit →
      read_blob_string (D := D) cfg (36 :: input) =
        .error .InvalidBlobLength) ∧
    (∀ (D : Type) (cfg : RespConfig) (input : List Nat) (size : Nat)
        (rest : List Nat), read_size input = .ok (size, rest) →
      size > cfg.blob_limit →
      read_verbatim (D := D) cfg (61 :: input) =
        .error .InvalidBlobLength) ∧
    (∀ (D : Type) (cfg : RespConfig) (input : List Nat) (size : Nat)
        (rest : List Nat), read_size input = .ok (size, rest) →
      size > cfg.blob_limit →
      read_blob_error (D := D) cfg (33 :: input) =
        .error .InvalidBlobLength) ∧
    (∀ (cfg : RespConfig) (c : Nat) (args : List (List Nat))
        (input : List Nat) (size : Nat) (rest : List Nat),
      read_size input = .ok (size, rest) → size > cfg.blob_limit →
      request cfg ⟨.Args (c + 1), args, 36 :: input⟩ =
        .error .InvalidBlobLength) :=
  ⟨fun D cfg input size rest h1 h2 =>
      read_blob_string_limit cfg input size rest h1 h2,
   fun D cfg input size rest h1 h2 =>
      read_verbatim_limit cfg input size rest h1 h2,
   fun D cfg input size rest h1 h2 =>
      read_blob_error_limit cfg input size rest h1 h2,
   fun cfg c args input size rest h1 h2 =>
      request_args_limit cfg c args input size rest h1 h2⟩

/-- C5 witness: with `blob_limit = 5` the declared size 10 is rejected at
all four sites even though only three payload bytes follow. -/
theorem c5_blob_limit_witness :
    read_blob_string (D := Unit) ⟨5, 1024 * 64⟩
        (36 :: [49, 48, 13, 10, 97, 98, 99]) = .error .InvalidBlobLength ∧
    request ⟨5, 1024 * 64⟩ ⟨.Args 2, [], 36 :: [49, 48, 13, 10, 97, 98, 99]⟩ =
      .error .InvalidBlobLength :=
  ⟨c5_blob_limit_before_payload.1 Unit ⟨5, 1024 * 64⟩ [49, 48, 13, 10, 97, 98, 99]
      10 [97, 98, 99] rfl (by decide),
   c5_blob_limit_before_payload.2.2.2 ⟨5, 1024 * 64⟩ 1 [] [49, 48, 13, 10, 97, 98, 99]
      10 [97, 98, 99] rfl (by decide)⟩

/-- C6: `read_size` returns exactly the decimal value of a non-empty
CRLF-terminated digit run whose value fits the `usize` accumulator, and
fails with `InvalidBlobLength` on an empty field, on the first non-digit
byte, and on accumulator overflow; in particular `"1234\r\n"` parses to
`1234` and `"invalid\r\n"` fails. -/
theorem c6_read_size_spec :
    (∀ (ds rest : List Nat), ds ≠ [] → (∀ d ∈ ds, 48 ≤ d ∧ d ≤ 57) →
      byteVal ds < USIZE →
      read_size (ds ++ 13 :: 10 :: rest) = .ok (byteVal ds, rest)) ∧
    (∀ rest : List Nat, read_size (13 :: rest) = .error .InvalidBlobLength) ∧
    (∀ (ds : List Nat) (b : Nat) (rest : List Nat),
      (∀ d ∈ ds, 48 ≤ d ∧ d ≤ 57) → ¬(48 ≤ b ∧ b ≤ 57) → b ≠ 13 →
      read_size (ds ++ b :: rest) = .error .InvalidBlobLength) ∧
    (∀ (ds rest : List Nat), ds ≠ [] → (∀ d ∈ ds, 48 ≤ d ∧ d ≤ 57) →
      USIZE ≤ byteVal ds →
      read_size (ds ++ rest) = .error .InvalidBlobLength) ∧
    read_size [49, 50, 51, 52, 13, 10] = .ok (1234, []) ∧
    read_size [105, 110, 118, 97, 108, 105, 100, 13, 10] =
      .error .InvalidBlobLength :=
  ⟨fun ds rest h1 h2 h3 => read_size_digits ds rest h1 h2 h3,
   read_size_empty,
   fun ds b rest h1 h2 h3 => read_size_nondigit ds b rest h1 h2 h3,
   fun ds rest h1 h2 h3 => read_size_overflow ds rest h1 h2 h3,
   rfl, rfl⟩

/-- C6 witness: the digit-run clause applied to `"1234\r\n"`. -/
theorem c6_read_size_witness : read_size ([49, 50, 51, 52] ++ 13 :: 10 :: []) =
    .ok (byteVal [49, 50, 51, 52], []) ∧ byteVal [49, 50, 51, 52] = 1234 :=
  ⟨c6_read_size_spec.1 [49, 50, 51, 52] [] (by decide) (by decide)
      (by norm_num [byteVal, USIZE]), by norm_num [byteVal]⟩

/-- C7: `value` enforces key/member uniqueness: every `Map`, `Attribute`,
or `Set` it returns has pairwise-distinct keys/members (by `RespPrimitive`
equality), and in the key/value and member loops a key (resp. member) equal
to one already decoded fails with `InvalidMap` (resp. `InvalidSet`)
regardless of the associated values. -/
theorem c7_unique_keys :
    (∀ (D : Type) (parseD : List Nat → Option D) (cfg : RespConfig)
        (fuel : Nat) (input : List Nat)
        (m : List (RespPrimitive × RespValue D)) (rest : List Nat),
      value parseD cfg fuel input = .ok (some (.Map m), rest) →
      (m.map Prod.fst).Nodup) ∧
    (∀ (D : Type) (parseD : List Nat → Option D) (cfg : RespConfig)
        (fuel : Nat) (input : List Nat)
        (m : List (RespPrimitive × RespValue D)) (rest : List Nat),
      value parseD cfg fuel input = .ok (some (.Attribute m), rest) →
      (m.map Prod.fst).Nodup) ∧
    (∀ (D : Type) (parseD : List Nat → Option D) (cfg : RespConfig)
        (fuel : Nat) (input : List Nat) (s : List RespPrimitive)
        (rest : List Nat),
      value parseD cfg fuel input = .ok (some (.Set s), rest) → s.Nodup) ∧
    (∀ (D : Type)
        (child : List Nat → Except RespError (Option (RespValue D) × List Nat))
        (n : Nat) (m : List (RespPrimitive × RespValue D))
        (input input1 input2 : List Nat) (kv v : RespValue D)
        (k : RespPrimitive),
      requireChild child input = .ok (kv, input1) →
      toPrimitive kv = .ok k → k ∈ m.map Prod.fst →
      requireChild child input1 = .ok (v, input2) →
      mapLoop child (n + 1) m input = .error .InvalidMap) ∧
    (∀ (D : Type)
        (child : List Nat → Except RespError (Option (RespValue D) × List Nat))
        (n : Nat) (s : List RespPrimitive) (input input1 : List Nat)
        (kv : RespValue D) (k : RespPrimitive),
      requireChild child input = .ok (kv, input1) →
      toPrimitive kv = .ok k → k ∈ s →
      setLoop child (n + 1) s input = .error .InvalidSet) :=
  ⟨fun D parseD cfg fuel input m rest h =>
      value_map_nodup parseD cfg fuel input m rest h,
   fun D parseD cfg fuel input m rest h =>
      value_attribute_nodup parseD cfg fuel input m rest h,
   fun D parseD cfg fuel input s rest h =>
      value_set_nodup parseD cfg fuel input s rest h,
   fun D child n m input input1 input2 kv v k h1 h2 h3 h4 =>
      mapLoop_dup child n m input input1 input2 kv v k h1 h2 h3 h4,
   fun D child n s input input1 kv k h1 h2 h3 =>
      setLoop_dup child n s input input1 kv k h1 h2 h3⟩

/-- C7 witness: the map `"%1\r\n:1\r\n:2\r\n"` decodes with distinct keys,
and re-inserting the key `1` (with a different value, `9`) into a
one-entry partial map fails `InvalidMap`. -/
theorem c7_unique_keys_witness :
    (([( RespPrimitive.Integer 1, RespValue.Integer (D := Unit) 2)].map
        Prod.fst).Nodup) ∧
    mapLoop (fun i => value (fun _ => some ()) defaultConfig 2 i) 1
        [(RespPrimitive.Integer 1, RespValue.Integer (D := Unit) 5)]
        [58, 49, 13, 10, 58, 57, 13, 10] = .error .InvalidMap :=
  ⟨c7_unique_keys.1 Unit (fun _ => some ()) defaultConfig 3
      [37, 49, 13, 10, 58, 49, 13, 10, 58, 50, 13, 10]
      [(RespPrimitive.Integer 1, RespValue.Integer 2)] [] rfl,
   c7_unique_keys.2.2.2.1 Unit (fun i => value (fun _ => some ()) defaultConfig 2 i)
      0 [(RespPrimitive.Integer 1, RespValue.Integer 5)]
      [58, 49, 13, 10, 58, 57, 13, 10] [58, 57, 13, 10] []
      (RespValue.Integer 1) (RespValue.Integer 9) (RespPrimitive.Integer 1)
      rfl rfl (by decide) rfl⟩

/-- C8: the writer encodes booleans as `:1\r\n`/`:0\r\n` at V2 and
`#t\r\n`/`#f\r\n` at V3, writing nothing else, while the frame decoder
maps every successfully decoded `:`-prefixed input to `Frame::Integer`
(never `Frame::Boolean`): the boolean→integer downgrade is one-way. -/
theorem c8_boolean_integer_asymmetry :
    write_boolean .V2 true [] = ([58, 49, 13, 10], .ok ()) ∧
    write_boolean .V2 false [] = ([58, 48, 13, 10], .ok ()) ∧
    write_boolean .V3 true [] = ([35, 116, 13, 10], .ok ()) ∧
    write_boolean .V3 false [] = ([35, 102, 13, 10], .ok ()) ∧
    (∀ (D : Type) (parseD : List Nat → Option D) (cfg : RespConfig)
        (input rest : List Nat) (f : RespFrame D),
      input.head? = some 58 → frame parseD cfg input = .ok (some f, rest) →
      ∃ i, f = .Integer i) := by
  refine ⟨rfl, rfl, rfl, rfl, ?_⟩
  intro D parseD cfg input rest f hh hf
  cases input with
  | nil => simp at hh
  | cons b tl =>
    have hb : b = 58 := by simpa using hh
    subst hb
    rw [frame_at_58] at hf
    exact read_integer_ok_shape cfg _ f rest (wrapF_eq_ok _ f rest hf)

/-- C8 witness: decoding `":1\r\n"` yields an integer frame. -/
theorem c8_boolean_integer_witness :
    ∃ i, (RespFrame.Integer 1 : RespFrame Unit) = .Integer i :=
  c8_boolean_integer_asymmetry.2.2.2.2 Unit (fun _ => some ()) defaultConfig
    [58, 49, 13, 10] [] (.Integer 1) rfl rfl

/-- C9: a payload containing the newline byte makes `write_simple_string`,
`write_simple_error`, and `write_bignum` fail with `Newline` at both
protocol versions, leaving the sink exactly as it was — no partial frame
is written. -/
theorem c9_newline_no_partial_write (version : RespVersion) (v : List Nat)
    (sink : List Nat) (h : 10 ∈ v) :
    write_simple_string version v sink = (sink, .error .Newline) ∧
    write_simple_error version v sink = (sink, .error .Newline) ∧
    write_bignum version v sink = (sink, .error .Newline) := by
  unfold write_simple_string write_simple_error write_bignum
  rw [if_pos h, if_pos h, if_pos h]
  exact ⟨rfl, rfl, rfl⟩

/-- C9 witness: the payload `"a\nb"` is rejected with the sink untouched. -/
theorem c9_newline_witness :
    write_simple_string .V2 [97, 10, 98] [43, 43] =
      ([43, 43], .error .Newline) :=
  (c9_newline_no_partial_write .V2 [97, 10, 98] [43, 43] (by decide)).1

/-- C10 counterexample: the negative length `-12` (input `"*-12\r\n"`) is
rejected, but with `Unexpected(b'\r', b'2')` — the mismatch is found at the
third byte of the `"-1\r\n"` template — not with `Unexpected(b'1', _)` as
the claim states for every negative length other than `-1`. -/
theorem c10_counterexample :
    frame (fun _ => some ()) defaultConfig [42, 45, 49, 50, 13, 10] =
      (.error (.Unexpected 13 50) :
        Except RespError (Option (RespFrame Unit) × List Nat)) ∧
    RespError.Unexpected 13 50 ≠ .Unexpected 49 50 := ⟨rfl, by decide⟩

/-- C10 (amended): after `*-` or `$-` only the exact sentinel continuation
`"1\r\n"` is accepted, decoding to `Frame::Nil`; any other byte sequence
fails with `Unexpected` at the first mismatch against the template —
`Unexpected(b'1', b)` when the byte after `-` is not `'1'` (e.g. `"*-2"`,
`"$-7"`), `Unexpected(b'\r', b)` when `-1` is followed by anything but CR
(e.g. `"*-12"`).  Negative lengths never fail `InvalidBlobLength` and
never decode to `Nil`. -/
theorem c10_negative_length_sentinel :
    (∀ (D : Type) (parseD : List Nat → Option D) (cfg : RespConfig)
        (rest : List Nat),
      frame parseD cfg (42 :: 45 :: 49 :: 13 :: 10 :: rest) =
        .ok (some .Nil, rest)) ∧
    (∀ (D : Type) (parseD : List Nat → Option D) (cfg : RespConfig)
        (rest : List Nat),
      frame parseD cfg (36 :: 45 :: 49 :: 13 :: 10 :: rest) =
        .ok (some .Nil, rest)) ∧
    (∀ (D : Type) (parseD : List Nat → Option D) (cfg : RespConfig)
        (b : Nat) (rest : List Nat), b ≠ 49 →
      frame parseD cfg (42 :: 45 :: b :: rest) =
        .error (.Unexpected 49 b)) ∧
    (∀ (D : Type) (parseD : List Nat → Option D) (cfg : RespConfig)
        (b : Nat) (rest : List Nat), b ≠ 13 →
      frame parseD cfg (42 :: 45 :: 49 :: b :: rest) =
        .error (.Unexpected 13 b)) ∧
    (∀ (D : Type) (parseD : List Nat → Option D) (cfg : RespConfig)
        (b : Nat) (rest : List Nat), b ≠ 49 →
      frame parseD cfg (36 :: 45 :: b :: rest) =
        .error (.Unexpected 49 b)) ∧
    (∀ (D : Type) (parseD : List Nat → Option D) (cfg : RespConfig)
        (b : Nat) (rest : List Nat), b ≠ 13 →
      frame parseD cfg (36 :: 45 :: 49 :: b :: rest) =
        .error (.Unexpected 13 b)) := by
  refine ⟨?_, ?_, ?_, ?_, ?_, ?_⟩
  · intro D parseD cfg rest
    rw [frame_at_42, read_array_nil, wrapF_ok]
  · intro D parseD cfg rest
    rw [frame_at_36, read_blob_string_nil, wrapF_ok]
  · intro D parseD cfg b rest hb
    rw [frame_at_42]
    unfold read_array
    rw [require_one]
    dsimp only
    rw [if_pos (show peek (45 :: b :: rest) = some 45 from rfl)]
    simp [require, hb, wrapF]
  · intro D parseD cfg b rest hb
    rw [frame_at_42]
    unfold read_array
    rw [require_one]
    dsimp only
    rw [if_pos (show peek (45 :: 49 :: b :: rest) = some 45 from rfl)]
    simp [require, hb, wrapF]
  · intro D parseD cfg b rest hb
    rw [frame_at_36]
    unfold read_blob_string
    rw [require_one]
    dsimp only
    rw [if_pos (show peek (45 :: b :: rest) = some 45 from rfl)]
    simp [require, hb, wrapF]
  · intro D parseD cfg b rest hb
    rw [frame_at_36]
    unfold read_blob_string
    rw [require_one]
    dsimp only
    rw [if_pos (show peek (45 :: 49 :: b :: rest) = some 45 from rfl)]
    simp [require, hb, wrapF]

/-- C10 witness: `"*-2\r\n"` fails `Unexpected(b'1', b'2')` and
`"$-1\r\n"` decodes to `Nil`. -/
theorem c10_negative_length_witness :
    frame (fun _ => some ()) defaultConfig (42 :: 45 :: 50 :: [13, 10]) =
      (.error (.Unexpected 49 50) :
        Except RespError (Option (RespFrame Unit) × List Nat)) ∧
    frame (fun _ => some ()) defaultConfig (36 :: 45 :: 49 :: 13 :: 10 :: []) =
      .ok (some .Nil, []) :=
  ⟨c10_negative_length_sentinel.2.2.1 Unit (fun _ => some ()) defaultConfig
      50 [13, 10] (by decide),
   c10_negative_length_sentinel.2.1 Unit (fun _ => some ()) defaultConfig []⟩

/-- C1 counterexample: `write_boolean` at V2 succeeds, emitting `":1\r\n"`,
but decoding that output yields `Frame::Integer 1`, not the original
`Boolean true` — the V2 fallback encodings do not round-trip to the
original semantic value, contradicting the claim's quantification over
both versions. -/
theorem c1_counterexample :
    write_boolean .V2 true [] = ([58, 49, 13, 10], .ok ()) ∧
    frame (fun _ => some ()) defaultConfig [58, 49, 13, 10] =
      (.ok (some (.Integer 1), []) :
        Except RespError (Option (RespFrame Unit) × List Nat)) ∧
    (RespFrame.Integer 1 : RespFrame Unit) ≠ .Boolean true :=
  ⟨rfl, rfl, by decide⟩

/-- C1 (amended): with the default limits, every frame the writer encodes
at V3 decodes back to the original frame — provided line payloads
(bignum, simple string/error, double text) are CR-free and fit the inline
limit, blob sizes fit the blob limit, the verbatim format tag is three
bytes, and the double text reparses to the same value — while
`write_attribute`'s V3 bytes decode to the `Attribute` header carrying the
declared size.  At V2: `Array`, `BlobString`, `Integer`, `SimpleString`,
`SimpleError` and `Nil` round-trip identically; `Boolean` decodes to
`Integer 1`/`0`, `Bignum` and `Double` to `SimpleString`, `Map n` to
`Array (2n)`, `Push n`/`Set n` to `Array n`, `Verbatim` to `BlobString`
with the format dropped; and `Attribute`/`BlobError` fail with `Version`
writing nothing. -/
theorem c1_roundtrip_amended :
    (∀ (D : Type) (parseD : List Nat → Option D) (version : RespVersion)
        (n : Nat) (extra : List Nat), n < USIZE →
      frame parseD defaultConfig ((write_array version n []).1 ++ extra) =
        .ok (some (.Array n), extra)) ∧
    (∀ (v sink : List Nat),
      write_attribute .V2 v sink = (sink, .error .Version)) ∧
    (∀ (D : Type) (parseD : List Nat → Option D) (v extra : List Nat),
        v.length < USIZE →
      frame parseD defaultConfig ((write_attribute .V3 v []).1 ++ extra) =
        .ok (some (.Attribute v.length), v ++ 13 :: 10 :: extra)) ∧
    (∀ (D : Type) (parseD : List Nat → Option D) (v extra : List Nat),
        10 ∉ v → 13 ∉ v → v.length < defaultConfig.inline_limit →
      frame parseD defaultConfig ((write_bignum .V3 v []).1 ++ extra) =
          .ok (some (.Bignum v), extra) ∧
        frame parseD defaultConfig ((write_bignum .V2 v []).1 ++ extra) =
          .ok (some (.SimpleString v), extra)) ∧
    (∀ (v sink : List Nat),
      write_blob_error .V2 v sink = (sink, .error .Version)) ∧
    (∀ (D : Type) (parseD : List Nat → Option D) (v extra : List Nat),
        v.length ≤ defaultConfig.blob_limit →
      frame parseD defaultConfig ((write_blob_error .V3 v []).1 ++ extra) =
        .ok (some (.BlobError v), extra)) ∧
    (∀ (D : Type) (parseD : List Nat → Option D) (version : RespVersion)
        (v extra : List Nat), v.length ≤ defaultConfig.blob_limit →
      frame parseD defaultConfig ((write_blob_string version v []).1 ++ extra) =
        .ok (some (.BlobString v), extra)) ∧
    (∀ (D : Type) (parseD : List Nat → Option D) (b : Bool)
        (extra : List Nat),
      frame parseD defaultConfig ((write_boolean .V3 b []).1 ++ extra) =
        .ok (some (.Boolean b), extra)) ∧
    (∀ (D : Type) (parseD : List Nat → Option D) (extra : List Nat),
      frame parseD defaultConfig ((write_boolean .V2 true []).1 ++ extra) =
          .ok (some (.Integer 1), extra) ∧
        frame parseD defaultConfig ((write_boolean .V2 false []).1 ++ extra) =
          .ok (some (.Integer 0), extra)) ∧
    (∀ (D : Type) (parseD : List Nat → Option D) (fmtD : D → List Nat)
        (x : D) (extra : List Nat), parseD (fmtD x) = some x →
        13 ∉ fmtD x → (fmtD x).length < defaultConfig.inline_limit →
      frame parseD defaultConfig ((write_double fmtD .V3 x []).1 ++ extra) =
        .ok (some (.Double x), extra)) ∧
    (∀ (D : Type) (parseD : List Nat → Option D) (fmtD : D → List Nat)
        (x : D) (extra : List Nat),
        13 ∉ fmtD x → (fmtD x).length < defaultConfig.inline_limit →
      frame parseD defaultConfig ((write_double fmtD .V2 x []).1 ++ extra) =
        .ok (some (.SimpleString (fmtD x)), extra)) ∧
    (∀ (D : Type) (parseD : List Nat → Option D) (version : RespVersion)
        (i : Int) (extra : List Nat),
        -(2 : Int) ^ 63 ≤ i → i < 2 ^ 63 →
      frame parseD defaultConfig ((write_integer version i []).1 ++ extra) =
        .ok (some (.Integer i), extra)) ∧
    (∀ (D : Type) (parseD : List Nat → Option D) (n : Nat)
        (extra : List Nat), n < USIZE →
      frame parseD defaultConfig ((write_map .V3 n []).1 ++ extra) =
        .ok (some (.Map n), extra)) ∧
    (∀ (D : Type) (parseD : List Nat → Option D) (n : Nat)
        (extra : List Nat), 2 * n < USIZE →
      frame parseD defaultConfig ((write_map .V2 n []).1 ++ extra) =
        .ok (some (.Array (2 * n)), extra)) ∧
    (∀ (D : Type) (parseD : List Nat → Option D) (version : RespVersion)
        (extra : List Nat),
      frame parseD defaultConfig ((write_nil version []).1 ++ extra) =
        .ok (some .Nil, extra)) ∧
    (∀ (D : Type) (parseD : List Nat → Option D) (n : Nat)
        (extra : List Nat), n < USIZE →
      frame parseD defaultConfig ((write_push .V3 n []).1 ++ extra) =
          .ok (some (.Push n), extra) ∧
        frame parseD defaultConfig ((write_set .V3 n []).1 ++ extra) =
          .ok (some (.Set n), extra) ∧
        frame parseD defaultConfig ((write_push .V2 n []).1 ++ extra) =
          .ok (some (.Array n), extra) ∧
        frame parseD defaultConfig ((write_set .V2 n []).1 ++ extra) =
          .ok (some (.Array n), extra)) ∧
    (∀ (D : Type) (parseD : List Nat → Option D) (version : RespVersion)
        (v extra : List Nat),
        10 ∉ v → 13 ∉ v → v.length < defaultConfig.inline_limit →
      frame parseD defaultConfig ((write_simple_error version v []).1 ++ extra) =
          .ok (some (.SimpleError v), extra) ∧
        frame parseD defaultConfig
            ((write_simple_string version v []).1 ++ extra) =
          .ok (some (.SimpleString v), extra)) ∧
    (∀ (D : Type) (parseD : List Nat → Option D) (format v extra : List Nat),
        format.length = 3 → 4 + v.length ≤ defaultConfig.blob_limit →
      frame parseD defaultConfig ((write_verbatim .V3 format v []).1 ++ extra) =
        .ok (some (.Verbatim format v), extra)) ∧
    (∀ (D : Type) (parseD : List Nat → Option D) (format v extra : List Nat),
        v.length ≤ defaultConfig.blob_limit →
      frame parseD defaultConfig ((write_verbatim .V2 format v []).1 ++ extra) =
        .ok (some (.BlobString v), extra)) := by
  have hbig : (536870912 : Nat) < USIZE := by norm_num [USIZE]
  refine ⟨?_, ?_, ?_, ?_, ?_, ?_, ?_, ?_, ?_, ?_, ?_, ?_, ?_, ?_, ?_, ?_,
    ?_, ?_, ?_⟩
  · intro D parseD version n extra hn
    rw [show (write_array version n []).1 ++ extra =
        42 :: (natToBytes n ++ 13 :: 10 :: extra) from by
      simp [write_array, crlf]]
    rw [frame_at_42, read_array_rt defaultConfig n extra hn, wrapF_ok]
  · intro v sink
    rfl
  · intro D parseD v extra hn
    rw [show (write_attribute .V3 v []).1 ++ extra =
        124 :: (natToBytes v.length ++ 13 :: 10 :: (v ++ 13 :: 10 :: extra)) from by
      simp [write_attribute, crlf]]
    rw [frame_at_124,
      read_attribute_rt defaultConfig v.length (v ++ 13 :: 10 :: extra) hn,
      wrapF_ok]
  · intro D parseD v extra h10 h13 hlen
    constructor
    · rw [show (write_bignum .V3 v []).1 ++ extra =
          40 :: (v ++ 13 :: 10 :: extra) from by
        simp [write_bignum, crlf, h10]]
      rw [frame_at_40, read_bignum_rt defaultConfig v extra h13 hlen, wrapF_ok]
    · rw [show (write_bignum .V2 v []).1 ++ extra =
          43 :: (v ++ 13 :: 10 :: extra) from by
        simp [write_bignum, crlf, h10]]
      rw [frame_at_43, read_simple_string_rt defaultConfig v extra h13 hlen,
        wrapF_ok]
  · intro v sink
    rfl
  · intro D parseD v extra hb
    have hn : v.length < USIZE := by
      have : v.length ≤ 536870912 := by simpa [defaultConfig] using hb
      omega
    rw [show (write_blob_error .V3 v []).1 ++ extra =
        33 :: (natToBytes v.length ++ 13 :: 10 :: (v ++ 13 :: 10 :: extra)) from by
      simp [write_blob_error, crlf]]
    rw [frame_at_33, read_blob_error_rt defaultConfig v extra hn hb, wrapF_ok]
  · intro D parseD version v extra hb
    have hn : v.length < USIZE := by
      have : v.length ≤ 536870912 := by simpa [defaultConfig] using hb
      omega
    rw [show (write_blob_string version v []).1 ++ extra =
        36 :: (natToBytes v.length ++ 13 :: 10 :: (v ++ 13 :: 10 :: extra)) from by
      simp [write_blob_string, crlf]]
    rw [frame_at_36, read_blob_string_rt defaultConfig v extra hn hb, wrapF_ok]
  · intro D parseD b extra
    cases b
    · rw [show (write_boolean .V3 false []).1 ++ extra =
          35 :: 102 :: 13 :: 10 :: extra from rfl]
      rw [frame_at_35, read_boolean_false defaultConfig extra, wrapF_ok]
    · rw [show (write_boolean .V3 true []).1 ++ extra =
          35 :: 116 :: 13 :: 10 :: extra from rfl]
      rw [frame_at_35, read_boolean_true defaultConfig extra, wrapF_ok]
  · intro D parseD extra
    exact ⟨rfl, rfl⟩
  · intro D parseD fmtD x extra hparse h13 hlen
    rw [show (write_double fmtD .V3 x []).1 ++ extra =
        44 :: (fmtD x ++ 13 :: 10 :: extra) from by
      simp [write_double, crlf]]
    rw [frame_at_44,
      read_double_rt parseD defaultConfig (fmtD x) extra x h13 hlen hparse,
      wrapF_ok]
  · intro D parseD fmtD x extra h13 hlen
    rw [show (write_double fmtD .V2 x []).1 ++ extra =
        43 :: (fmtD x ++ 13 :: 10 :: extra) from by
      simp [write_double, crlf]]
    rw [frame_at_43, read_simple_string_rt defaultConfig (fmtD x) extra h13 hlen,
      wrapF_ok]
  · intro D parseD version i extra h1 h2
    have hl : (intToBytes i).length < defaultConfig.inline_limit := by
      have := intToBytes_length_le i h1 h2
      simp only [defaultConfig]
      omega
    rw [show (write_integer version i []).1 ++ extra =
        58 :: (intToBytes i ++ 13 :: 10 :: extra) from by
      simp [write_integer, crlf]]
    rw [frame_at_58, read_integer_rt defaultConfig i extra h1 h2 hl, wrapF_ok]
  · intro D parseD n extra hn
    rw [show (write_map .V3 n []).1 ++ extra =
        37 :: (natToBytes n ++ 13 :: 10 :: extra) from by
      simp [write_map, crlf]]
    rw [frame_at_37, read_map_rt defaultConfig n extra hn, wrapF_ok]
  · intro D parseD n extra hn
    rw [show (write_map .V2 n []).1 ++ extra =
        42 :: (natToBytes (2 * n) ++ 13 :: 10 :: extra) from by
      simp [write_map, crlf]]
    rw [frame_at_42, read_array_rt defaultConfig (2 * n) extra hn, wrapF_ok]
  · intro D parseD version extra
    cases version
    · rw [show (write_nil .V2 []).1 ++ extra =
          36 :: 45 :: 49 :: 13 :: 10 :: extra from rfl]
      rw [frame_at_36, read_blob_string_nil defaultConfig extra, wrapF_ok]
    · rw [show (write_nil .V3 []).1 ++ extra = 95 :: 13 :: 10 :: extra from rfl]
      rw [frame_at_95, read_nil_rt defaultConfig extra, wrapF_ok]
  · intro D parseD n extra hn
    refine ⟨?_, ?_, ?_, ?_⟩
    · rw [show (write_push .V3 n []).1 ++ extra =
          62 :: (natToBytes n ++ 13 :: 10 :: extra) from by
        simp [write_push, crlf]]
      rw [frame_at_62, read_push_rt defaultConfig n extra hn, wrapF_ok]
    · rw [show (write_set .V3 n []).1 ++ extra =
          126 :: (natToBytes n ++ 13 :: 10 :: extra) from by
        simp [write_set, crlf]]
      rw [frame_at_126, read_set_rt defaultConfig n extra hn, wrapF_ok]
    · rw [show (write_push .V2 n []).1 ++ extra =
          42 :: (natToBytes n ++ 13 :: 10 :: extra) from by
        simp [write_push, crlf]]
      rw [frame_at_42, read_array_rt defaultConfig n extra hn, wrapF_ok]
    · rw [show (write_set .V2 n []).1 ++ extra =
          42 :: (natToBytes n ++ 13 :: 10 :: extra) from by
        simp [write_set, crlf]]
      rw [frame_at_42, read_array_rt defaultConfig n extra hn, wrapF_ok]
  · intro D parseD version v extra h10 h13 hlen
    constructor
    · rw [show (write_simple_error version v []).1 ++ extra =
          45 :: (v ++ 13 :: 10 :: extra) from by
        simp [write_simple_error, crlf, h10]]
      rw [frame_at_45, read_error_rt defaultConfig v extra h13 hlen, wrapF_ok]
    · rw [show (write_simple_string version v []).1 ++ extra =
          43 :: (v ++ 13 :: 10 :: extra) from by
        simp [write_simple_string, crlf, h10]]
      rw [frame_at_43, read_simple_string_rt defaultConfig v extra h13 hlen,
        wrapF_ok]
  · intro D parseD format v extra hf hb
    have hn : 4 + v.length < USIZE := by
      have : 4 + v.length ≤ 536870912 := by simpa [defaultConfig] using hb
      omega
    have hb' : 4 + v.length ≤ defaultConfig.blob_limit := hb
    rw [show (write_verbatim .V3 format v []).1 ++ extra =
        61 :: (natToBytes (format.length + 1 + v.length) ++
          13 :: 10 :: ((format ++ 58 :: v) ++ 13 :: 10 :: extra)) from by
      simp [write_verbatim, crlf]]
    rw [frame_at_61, read_verbatim_rt defaultConfig format v extra hf hb' hn,
      wrapF_ok]
  · intro D parseD format v extra hb
    have hn : v.length < USIZE := by
      have : v.length ≤ 536870912 := by simpa [defaultConfig] using hb
      omega
    rw [show (write_verbatim .V2 format v []).1 ++ extra =
        36 :: (natToBytes v.length ++ 13 :: 10 :: (v ++ 13 :: 10 :: extra)) from by
      simp [write_verbatim, crlf]]
    rw [frame_at_36, read_blob_string_rt defaultConfig v extra hn hb, wrapF_ok]

/-- C1 witness: the blob-string clause at `"ab"` (both versions) and the
V3 verbatim clause at `("txt", "a")`, with every hypothesis discharged at
the concrete input. -/
theorem c1_roundtrip_witness :
    frame (fun _ => some ()) defaultConfig
        ((write_blob_string .V2 [97, 98] []).1 ++ [33]) =
      (.ok (some (.BlobString [97, 98]), [33]) :
        Except RespError (Option (RespFrame Unit) × List Nat)) ∧
    frame (fun _ => some ()) defaultConfig
        ((write_verbatim .V3 [116, 120, 116] [97] []).1 ++ []) =
      .ok (some (.Verbatim [116, 120, 116] [97]), []) :=
  ⟨c1_roundtrip_amended.2.2.2.2.2.2.1 Unit (fun _ => some ()) .V2 [97, 98]
      [33] (by decide),
   (c1_roundtrip_amended.2.2.2.2.2.2.2.2.2.2.2.2.2.2.2.2.2.1) Unit
      (fun _ => some ()) [116, 120, 116] [97] [] (by decide) (by decide)⟩

end Respite
